import Mathlib

/-!
Verification development for the ShayLang compiler front-end
(`src/token.h`, `src/lexer.c`, `src/parser.c`, `src/codegen.c`).

The C code is shallowly embedded: every function that a claim touches is
translated into an executable Lean definition that follows the C control
flow statement by statement.  C machine integers (`int`, `long long`,
`size_t`) are modelled as `Int`/`Nat`; the `long long` clamping of
`strtoll` is modelled explicitly.  Pointers into the source buffer are
modelled as offsets (`Nat`) into the immutable character list of the
source.  `double` literal values are modelled as the exact rational the
lexeme denotes (IEEE rounding is not modelled; no claim inspects a float's
numeric value).  Heap allocation (the bump arenas) is assumed to succeed,
as every verified run is far below the 64 KiB arena bound.
-/

namespace ShayLang

/-- The token kind enumeration of `src/token.h`, constructor for constructor. -/
inductive TokenType where
  | TOKEN_INTEGER | TOKEN_FLOAT | TOKEN_STRING | TOKEN_CHAR | TOKEN_IDENTIFIER
  | TOKEN_INT | TOKEN_FLOAT_KW | TOKEN_STRING_KW | TOKEN_BOOL_KW | TOKEN_CHAR_KW | TOKEN_VOID_KW
  | TOKEN_IF | TOKEN_ELSE | TOKEN_WHILE | TOKEN_FOR | TOKEN_DO | TOKEN_SWITCH | TOKEN_CASE
  | TOKEN_DEFAULT | TOKEN_BREAK | TOKEN_CONTINUE | TOKEN_RETURN
  | TOKEN_FUNCTION | TOKEN_VAR | TOKEN_CONST
  | TOKEN_CLASS | TOKEN_STRUCT | TOKEN_ENUM | TOKEN_INTERFACE | TOKEN_IMPLEMENTS
  | TOKEN_EXTENDS | TOKEN_PUBLIC | TOKEN_PRIVATE | TOKEN_PROTECTED | TOKEN_STATIC
  | TOKEN_FINAL | TOKEN_ABSTRACT | TOKEN_VIRTUAL | TOKEN_OVERRIDE
  | TOKEN_TRY | TOKEN_CATCH | TOKEN_FINALLY | TOKEN_THROW
  | TOKEN_IMPORT_KW | TOKEN_EXPORT | TOKEN_MODULE | TOKEN_NAMESPACE
  | TOKEN_TRUE | TOKEN_FALSE | TOKEN_NULL | TOKEN_UNDEFINED
  | TOKEN_PLUS | TOKEN_MINUS | TOKEN_MULTIPLY | TOKEN_DIVIDE | TOKEN_MODULO | TOKEN_POWER
  | TOKEN_INCREMENT | TOKEN_DECREMENT
  | TOKEN_ASSIGN | TOKEN_PLUS_ASSIGN | TOKEN_MINUS_ASSIGN | TOKEN_MULTIPLY_ASSIGN
  | TOKEN_DIVIDE_ASSIGN | TOKEN_MODULO_ASSIGN | TOKEN_POWER_ASSIGN
  | TOKEN_EQUAL | TOKEN_NOT_EQUAL | TOKEN_STRICT_EQUAL | TOKEN_LESS | TOKEN_LESS_EQUAL
  | TOKEN_GREATER | TOKEN_GREATER_EQUAL
  | TOKEN_AND | TOKEN_OR | TOKEN_NOT
  | TOKEN_BITWISE_AND | TOKEN_BITWISE_OR | TOKEN_XOR | TOKEN_TILDE | TOKEN_LSHIFT | TOKEN_RSHIFT
  | TOKEN_AND_ASSIGN | TOKEN_OR_ASSIGN | TOKEN_XOR_ASSIGN | TOKEN_LSHIFT_ASSIGN | TOKEN_RSHIFT_ASSIGN
  | TOKEN_LPAREN | TOKEN_RPAREN | TOKEN_LBRACE | TOKEN_RBRACE | TOKEN_LBRACKET | TOKEN_RBRACKET
  | TOKEN_SEMICOLON | TOKEN_COMMA | TOKEN_DOT | TOKEN_COLON | TOKEN_SCOPE | TOKEN_ARROW
  | TOKEN_QUESTION | TOKEN_ELLIPSIS | TOKEN_HASH
  | TOKEN_NEWLINE | TOKEN_EOF | TOKEN_ERROR | TOKEN_UNKNOWN
  deriving DecidableEq, Repr

/-- `Position` of `src/token.h`: `int line; int column; const char* filename`.
C `int` is modelled as `Int` (make_token subtracts the lexeme length from the
column, which can make it non-positive; 32-bit wraparound is not modelled). -/
structure Position where
  line : Int
  column : Int
  filename : String
  deriving DecidableEq, Repr

/-- The literal-value union of a token (`long long int_value; double float_value`).
`undef` models a union member that was never written (its C content is
indeterminate); `floatVal` carries the exact rational `strtod` would decode
(IEEE rounding not modelled). -/
inductive TokenValue where
  | undef : TokenValue
  | intVal : Int → TokenValue
  | floatVal : Rat → TokenValue
  deriving DecidableEq, Repr

/-- `Token` of `src/token.h`.  `start` is the offset into the source buffer of
the `const char* start` lexeme pointer. -/
structure Token where
  type : TokenType
  start : Nat
  length : Nat
  pos : Position
  value : TokenValue
  deriving DecidableEq, Repr

/-- The fields of `Lexer` (src/lexer.h) that the scanning code reads or writes:
`source`/`current`/`start` (as offsets into `src`) and `pos`.  The scanner in
src/lexer.c never reads `has_error`, `error_message` or `tokens_processed`,
so those live in `LexState` below and the scanner is a pure function of a
`ScanState`.  The unused 2025 telemetry fields carry no behavior. -/
structure ScanState where
  src : List Char
  current : Nat
  start : Nat
  pos : Position
  deriving DecidableEq, Repr

/-- The diagnostic fields of `Lexer` around the scan core.  The arena and the
string pool are not modelled: `lexer_next_token` never touches them. -/
structure LexState where
  scan : ScanState
  has_error : Bool
  error_message : String
  tokens_processed : Nat
  deriving DecidableEq, Repr

/-- The NUL terminator of the C source buffer. -/
def nulChar : Char := '\x00'

/-- C `isdigit` on the ASCII range. -/
def isdigitB (c : Char) : Bool := decide ('0' ≤ c ∧ c ≤ '9')

/-- C `isalpha` on the ASCII range. -/
def isalphaB (c : Char) : Bool := decide (('a' ≤ c ∧ c ≤ 'z') ∨ ('A' ≤ c ∧ c ≤ 'Z'))

/-- C `isalnum` on the ASCII range. -/
def isalnumB (c : Char) : Bool := isalphaB c || isdigitB c

/-- C `isxdigit` on the ASCII range. -/
def isxdigitB (c : Char) : Bool :=
  isdigitB c || decide (('a' ≤ c ∧ c ≤ 'f') ∨ ('A' ≤ c ∧ c ≤ 'F'))

/-- C `isspace` on the ASCII range. -/
def isspaceB (c : Char) : Bool :=
  c == ' ' || c == '\t' || c == '\n' || c == '\x0b' || c == '\x0c' || c == '\r'

/-- The numeric value of an ASCII digit in bases up to 16; 99 marks a
non-digit (no base in the program exceeds 16). -/
def digitValue (c : Char) : Nat :=
  if isdigitB c then c.toNat - '0'.toNat
  else if decide ('a' ≤ c ∧ c ≤ 'f') then c.toNat - 'a'.toNat + 10
  else if decide ('A' ≤ c ∧ c ≤ 'F') then c.toNat - 'A'.toNat + 10
  else 99

/-- `LLONG_MAX`. -/
def LLONG_MAX : Int := 9223372036854775807

/-- Digit-accumulation loop of `strtoll`: reads digits valid in `base`. -/
def strtollDigits (base : Nat) : List Char → Nat → Nat
  | [], acc => acc
  | c :: cs, acc =>
    if digitValue c < base then strtollDigits base cs (acc * base + digitValue c) else acc

/-- C `strtoll(cs, NULL, base)` for the bases the lexer uses (2, 8, 10, 16):
optional whitespace and sign, an optional `0x`/`0X` prefix when `base = 16`,
then digits valid in the base, clamped to the `long long` range.  (`strtoll`
recognizes no `0b`/`0o` prefix.) -/
def strtoll (cs : List Char) (base : Nat) : Int :=
  let cs := cs.dropWhile isspaceB
  let (neg, cs) :=
    match cs with
    | '-' :: rest => (true, rest)
    | '+' :: rest => (false, rest)
    | _ => (false, cs)
  let cs :=
    if base = 16 then
      match cs with
      | '0' :: x :: d :: rest =>
        if (x == 'x' || x == 'X') && digitValue d < 16 then d :: rest else '0' :: x :: d :: rest
      | _ => cs
    else cs
  let v : Int := (strtollDigits base cs 0 : Int)
  if neg then max (-v) (-LLONG_MAX - 1) else min v LLONG_MAX

/-- Leading digits of a character list, and the rest. -/
def takeDigits (cs : List Char) : List Char × List Char :=
  (cs.takeWhile isdigitB, cs.dropWhile isdigitB)

/-- Decimal digits to a natural number. -/
def digitsToNat (cs : List Char) : Nat :=
  cs.foldl (fun acc c => acc * 10 + (c.toNat - '0'.toNat)) 0

/-- C `strtod(cs, NULL)` on the decimal forms reachable from the lexer
(`digits [. digits] [e/E [sign] digits]`), as the exact rational value; the
exponent only counts when at least one exponent digit follows (otherwise
`strtod` rolls back to the mantissa).  Hex floats, infinities, NaNs and IEEE
rounding/overflow are outside the reachable inputs and not modelled. -/
def strtodQ (cs : List Char) : Rat :=
  let cs := cs.dropWhile isspaceB
  let (neg, cs) :=
    match cs with
    | '-' :: rest => (true, rest)
    | '+' :: rest => (false, rest)
    | _ => (false, cs)
  let (ip, cs1) := takeDigits cs
  let (fp, cs2) :=
    match cs1 with
    | '.' :: rest => takeDigits rest
    | _ => ([], cs1)
  if ip.length + fp.length = 0 then 0
  else
    let mant : Rat := (digitsToNat (ip ++ fp) : Rat) / ((10 : Rat) ^ fp.length)
    let e : Int :=
      match cs2 with
      | c :: rest =>
        if c == 'e' || c == 'E' then
          let (eneg, rest2) :=
            match rest with
            | '-' :: r2 => (true, r2)
            | '+' :: r2 => (false, r2)
            | _ => (false, rest)
          let (ed, _) := takeDigits rest2
          if ed.isEmpty then 0
          else if eneg then -(digitsToNat ed : Int) else (digitsToNat ed : Int)
        else 0
      | [] => 0
    let v := mant * (10 : Rat) ^ e
    if neg then -v else v

/-- `peek` (src/lexer.c): the byte at the cursor; reading at or past the end of
the buffer yields the NUL terminator. -/
def peekc (s : ScanState) : Char := s.src.getD s.current nulChar

/-- `is_at_end`: `*current == '\0'`. -/
def is_at_end (s : ScanState) : Bool := peekc s == nulChar

/-- `peek_next`: `current[1]`, or `'\0'` at the end. -/
def peek_next (s : ScanState) : Char :=
  if is_at_end s then nulChar else s.src.getD (s.current + 1) nulChar

/-- `advance`: consume one byte, updating line/column; a no-op at the end. -/
def advance (s : ScanState) : Char × ScanState :=
  if is_at_end s then (nulChar, s)
  else
    let c := peekc s
    let p :=
      if c == '\n' then { s.pos with line := s.pos.line + 1, column := 1 }
      else { s.pos with column := s.pos.column + 1 }
    (c, { s with pos := p, current := s.current + 1 })

/-- `match` (src/lexer.c, renamed: `match` is a Lean keyword): conditionally
consume one expected byte; the column advances by one on success. -/
def matchChar (s : ScanState) (expected : Char) : Bool × ScanState :=
  if is_at_end s || peekc s != expected then (false, s)
  else (true, { s with current := s.current + 1,
                       pos := { s.pos with column := s.pos.column + 1 } })

theorem not_at_end_lt {s : ScanState} (h : is_at_end s = false) :
    s.current < s.src.length := by
  by_contra hc
  push_neg at hc
  have hd : peekc s = nulChar := by
    unfold peekc
    exact List.getD_eq_default s.src nulChar hc
  rw [is_at_end, hd] at h
  simp at h

theorem advance_src (s : ScanState) : (advance s).2.src = s.src := by
  unfold advance
  split <;> simp

theorem advance_start (s : ScanState) : (advance s).2.start = s.start := by
  unfold advance
  split <;> simp

theorem advance_current_of_not_at_end {s : ScanState} (h : is_at_end s = false) :
    (advance s).2.current = s.current + 1 := by
  unfold advance
  simp [h]

theorem advance_current_ge (s : ScanState) : s.current ≤ (advance s).2.current := by
  unfold advance
  split
  · exact Nat.le_refl _
  · simp

/-- A `while (p(peek)) advance;` loop, by structural recursion on a `gas`
bound.  The C loops it models all use a predicate false on NUL, so checking
`is_at_end` first is equivalent to the C guard.  Each iteration consumes one
byte, so any `gas ≥ src.length - current` makes the bound inert: when it
reaches 0 the cursor is at the end and the loop would stop anyway.  The
wrapper below always supplies such a gas. -/
def skipWhileGas (p : Char → Bool) : Nat → ScanState → ScanState
  | 0, s => s
  | gas + 1, s =>
    if is_at_end s then s
    else if p (peekc s) then skipWhileGas p gas (advance s).2
    else s

/-- The `while (p(peek)) advance;` loop with its inert gas bound. -/
def skipWhile (p : Char → Bool) (s : ScanState) : ScanState :=
  skipWhileGas p (s.src.length - s.current) s

theorem skipWhileGas_src (p : Char → Bool) (gas : Nat) (s : ScanState) :
    (skipWhileGas p gas s).src = s.src := by
  induction gas generalizing s with
  | zero => rfl
  | succ gas ih =>
    unfold skipWhileGas
    split
    · rfl
    split
    · rw [ih, advance_src]
    · rfl

theorem skipWhile_src (p : Char → Bool) (s : ScanState) : (skipWhile p s).src = s.src :=
  skipWhileGas_src p _ s

theorem skipWhileGas_current_ge (p : Char → Bool) (gas : Nat) (s : ScanState) :
    s.current ≤ (skipWhileGas p gas s).current := by
  induction gas generalizing s with
  | zero => exact Nat.le_refl _
  | succ gas ih =>
    unfold skipWhileGas
    split
    · exact Nat.le_refl _
    split
    · calc s.current ≤ (advance s).2.current := advance_current_ge s
        _ ≤ _ := ih (advance s).2
    · exact Nat.le_refl _

theorem skipWhile_current_ge (p : Char → Bool) (s : ScanState) :
    s.current ≤ (skipWhile p s).current :=
  skipWhileGas_current_ge p _ s

/-- The `/* ... */` skipping loop inside `skip_whitespace`, with an inert
gas bound (each iteration consumes at least one byte). -/
def skipBlockCommentGas : Nat → ScanState → ScanState
  | 0, s => s
  | gas + 1, s =>
    if is_at_end s then s
    else if peekc s == '*' && peek_next s == '/' then (advance (advance s).2).2
    else skipBlockCommentGas gas (advance s).2

/-- The `/* ... */` skipping loop with its inert gas bound. -/
def skipBlockComment (s : ScanState) : ScanState :=
  skipBlockCommentGas (s.src.length - s.current) s

theorem skipBlockCommentGas_src (gas : Nat) (s : ScanState) :
    (skipBlockCommentGas gas s).src = s.src := by
  induction gas generalizing s with
  | zero => rfl
  | succ gas ih =>
    unfold skipBlockCommentGas
    split
    · rfl
    split
    · rw [advance_src, advance_src]
    · rw [ih, advance_src]

theorem skipBlockComment_src (s : ScanState) : (skipBlockComment s).src = s.src :=
  skipBlockCommentGas_src _ s

theorem skipBlockCommentGas_current_ge (gas : Nat) (s : ScanState) :
    s.current ≤ (skipBlockCommentGas gas s).current := by
  induction gas generalizing s with
  | zero => exact Nat.le_refl _
  | succ gas ih =>
    unfold skipBlockCommentGas
    split
    · exact Nat.le_refl _
    split
    · calc s.current ≤ (advance s).2.current := advance_current_ge s
        _ ≤ _ := advance_current_ge _
    · calc s.current ≤ (advance s).2.current := advance_current_ge s
        _ ≤ _ := ih (advance s).2

theorem skipBlockComment_current_ge (s : ScanState) :
    s.current ≤ (skipBlockComment s).current :=
  skipBlockCommentGas_current_ge _ s

/-- `skip_whitespace`: spaces, tabs, carriage returns, `//` line comments and
`/* ... */` block comments, with an inert gas bound (each iteration consumes
at least one byte).  The line-comment case leaves the terminating newline
unconsumed, exactly as in C (the loop then stops at `'\n'`). -/
def skip_whitespaceGas : Nat → ScanState → ScanState
  | 0, s => s
  | gas + 1, s =>
    if is_at_end s then s
    else
      let c := peekc s
      if c == ' ' || c == '\r' || c == '\t' then skip_whitespaceGas gas (advance s).2
      else if c == '/' && peek_next s == '/' then
        skip_whitespaceGas gas (skipWhile (fun ch => ch != '\n') (advance s).2)
      else if c == '/' && peek_next s == '*' then
        skip_whitespaceGas gas (skipBlockComment (advance (advance s).2).2)
      else s

/-- `skip_whitespace` with its inert gas bound. -/
def skip_whitespace (s : ScanState) : ScanState :=
  skip_whitespaceGas (s.src.length - s.current) s

/-- `make_token`: the token's position is the lexer's position after the
lexeme with the column rolled back by the lexeme length.  The value union is
left unwritten. -/
def make_token (s : ScanState) (type : TokenType) : Token :=
  let len := s.current - s.start
  { type := type, start := s.start, length := len,
    pos := { s.pos with column := s.pos.column - (len : Int) }, value := .undef }

/-- `error_token`: an `ERROR` token carrying the current (post-lexeme)
position, together with the message latched into the lexer (`has_error` /
`error_message` are applied by the `LexState` wrapper below). -/
def error_token (s : ScanState) (message : String) : Token × ScanState × Option String :=
  ({ type := .TOKEN_ERROR, start := s.start, length := s.current - s.start,
     pos := s.pos, value := .undef }, s, some message)

/-- The suffix of the source starting at the saved lexeme start: what C's
`strtoll(lexer->start, ...)` / `strtod(lexer->start, ...)` read. -/
def fromStart (s : ScanState) : List Char := s.src.drop s.start

/-- C binary-digit test `peek == '0' || peek == '1'`. -/
def isbinB (c : Char) : Bool := c == '0' || c == '1'

/-- C octal-digit test `peek >= '0' && peek <= '7'`. -/
def isoctB (c : Char) : Bool := decide ('0' ≤ c ∧ c ≤ '7')

/-- The scanning part of `number` (src/lexer.c), returning `(is_float, base,
state)`.  `number` is entered after `lexer_next_token` has already consumed
the first digit, so `peek` here inspects the character after it. -/
def numberScan (s : ScanState) : Bool × Nat × ScanState :=
    if peekc s == '0' && !(is_at_end s) then
      let next := peek_next s
      if next == 'x' || next == 'X' then
        let s := (advance s).2
        let s := (advance s).2
        (false, 16, skipWhile isxdigitB s)
      else if next == 'b' || next == 'B' then
        let s := (advance s).2
        let s := (advance s).2
        (false, 2, skipWhile isbinB s)
      else if next == 'o' || next == 'O' then
        let s := (advance s).2
        let s := (advance s).2
        (false, 8, skipWhile isoctB s)
      else
        let s := skipWhile isdigitB s
        if peekc s == '.' && isdigitB (peek_next s) then
          (true, 10, skipWhile isdigitB (advance s).2)
        else (false, 10, s)
    else
      let s := skipWhile isdigitB s
      let (isf, s) :=
        if peekc s == '.' && isdigitB (peek_next s) then
          (true, skipWhile isdigitB (advance s).2)
        else (false, s)
      if (peekc s == 'e' || peekc s == 'E') &&
         (isdigitB (peek_next s) || (peek_next s == '+' || peek_next s == '-')) then
        let s := (advance s).2
        let s := if peekc s == '+' || peekc s == '-' then (advance s).2 else s
        (true, 10, skipWhile isdigitB s)
      else (isf, 10, s)

/-- The token assembly of `number`: scan (above), then `make_token` and the
base-aware (`strtoll`) or floating (`strtod`) decode from the saved start. -/
def number (s : ScanState) : Token × ScanState :=
  let (is_float, base, s1) := numberScan s
  let tok := make_token s1 (if is_float then .TOKEN_FLOAT else .TOKEN_INTEGER)
  if is_float then ({ tok with value := .floatVal (strtodQ (fromStart s1)) }, s1)
  else ({ tok with value := .intVal (strtoll (fromStart s1) base) }, s1)

/-- Up to `n` hex digits, each consumed only if present: the `\xHH` (n = 2)
and `\uHHHH` (n = 4) escape scans inside `string`. -/
def skipHexAtMost : Nat → ScanState → ScanState
  | 0, s => s
  | n + 1, s => if isxdigitB (peekc s) then skipHexAtMost n (advance s).2 else s

theorem skipHexAtMost_src (n : Nat) (s : ScanState) : (skipHexAtMost n s).src = s.src := by
  induction n generalizing s with
  | zero => rfl
  | succ n ih =>
    unfold skipHexAtMost
    split
    · rw [ih, advance_src]
    · rfl

theorem skipHexAtMost_current_ge (n : Nat) (s : ScanState) :
    s.current ≤ (skipHexAtMost n s).current := by
  induction n generalizing s with
  | zero => exact Nat.le_refl _
  | succ n ih =>
    unfold skipHexAtMost
    split
    · calc s.current ≤ (advance s).2.current := advance_current_ge s
        _ ≤ _ := ih (advance s).2
    · exact Nat.le_refl _

/-- The body loop of `string` (src/lexer.c): scan to the closing quote,
handling escapes, and tracking line/column across embedded newlines (the
non-escape branch updates the position by hand, as C does).  Structural on
an inert gas bound: each iteration consumes at least one byte. -/
def stringLoopGas : Nat → ScanState → ScanState
  | 0, s => s
  | gas + 1, s =>
    if is_at_end s then s
    else if peekc s == '"' then s
    else if peekc s == '\\' then
      let s1 := (advance s).2
      if is_at_end s1 then stringLoopGas gas s1
      else
        let e := peekc s1
        let s2 :=
          if e == 'n' || e == 't' || e == 'r' || e == '\\' || e == '"' || e == '\'' || e == '0' then
            (advance s1).2
          else if e == 'x' then skipHexAtMost 2 (advance s1).2
          else if e == 'u' then skipHexAtMost 4 (advance s1).2
          else (advance s1).2
        stringLoopGas gas s2
    else
      let p :=
        if peekc s == '\n' then { s.pos with line := s.pos.line + 1, column := 1 }
        else { s.pos with column := s.pos.column + 1 }
      stringLoopGas gas { s with pos := p, current := s.current + 1 }

/-- The string-body loop with its inert gas bound. -/
def stringLoop (s : ScanState) : ScanState :=
  stringLoopGas (s.src.length - s.current) s

/-- `string` (src/lexer.c), called after the opening quote was consumed;
yields `STRING`, or `ERROR "Unterminated string"` at end of input. -/
def stringTok (s : ScanState) : Token × ScanState × Option String :=
  let s := stringLoop s
  if is_at_end s then error_token s "Unterminated string"
  else
    let s := (advance s).2
    (make_token s .TOKEN_STRING, s, none)

/-- The keyword table of `init_keywords` (src/lexer.c), in source order. -/
def keywords : List (String × TokenType) :=
  [("int", .TOKEN_INT), ("float", .TOKEN_FLOAT_KW), ("string", .TOKEN_STRING_KW),
   ("bool", .TOKEN_BOOL_KW), ("char", .TOKEN_CHAR_KW), ("void", .TOKEN_VOID_KW),
   ("if", .TOKEN_IF), ("else", .TOKEN_ELSE), ("while", .TOKEN_WHILE), ("for", .TOKEN_FOR),
   ("do", .TOKEN_DO), ("switch", .TOKEN_SWITCH), ("case", .TOKEN_CASE),
   ("default", .TOKEN_DEFAULT), ("break", .TOKEN_BREAK), ("continue", .TOKEN_CONTINUE),
   ("return", .TOKEN_RETURN), ("function", .TOKEN_FUNCTION), ("var", .TOKEN_VAR),
   ("const", .TOKEN_CONST), ("class", .TOKEN_CLASS), ("struct", .TOKEN_STRUCT),
   ("enum", .TOKEN_ENUM), ("interface", .TOKEN_INTERFACE), ("implements", .TOKEN_IMPLEMENTS),
   ("extends", .TOKEN_EXTENDS), ("public", .TOKEN_PUBLIC), ("private", .TOKEN_PRIVATE),
   ("protected", .TOKEN_PROTECTED), ("static", .TOKEN_STATIC), ("final", .TOKEN_FINAL),
   ("abstract", .TOKEN_ABSTRACT), ("virtual", .TOKEN_VIRTUAL), ("override", .TOKEN_OVERRIDE),
   ("try", .TOKEN_TRY), ("catch", .TOKEN_CATCH), ("finally", .TOKEN_FINALLY),
   ("throw", .TOKEN_THROW), ("import", .TOKEN_IMPORT_KW), ("export", .TOKEN_EXPORT),
   ("module", .TOKEN_MODULE), ("namespace", .TOKEN_NAMESPACE), ("true", .TOKEN_TRUE),
   ("false", .TOKEN_FALSE), ("null", .TOKEN_NULL), ("undefined", .TOKEN_UNDEFINED)]

/-- The lexeme the state currently spans, `src[start .. current)`. -/
def lexeme (s : ScanState) : List Char :=
  (s.src.drop s.start).take (s.current - s.start)

/-- `check_keyword`: exact-match lookup in the keyword table, else
`IDENTIFIER`. -/
def check_keyword (lex : List Char) : TokenType :=
  match keywords.find? (fun kv => kv.1.toList == lex) with
  | some kv => kv.2
  | none => .TOKEN_IDENTIFIER

/-- `identifier` (src/lexer.c): consume alphanumerics and `_`, then the
keyword lookup decides the kind. -/
def identifier (s : ScanState) : Token × ScanState :=
  let s := skipWhile (fun c => isalnumB c || c == '_') s
  (make_token s (check_keyword (lexeme s)), s)

/-- The body of `lexer_next_token` (src/lexer.c) as a pure function of the
scan fields, returning the token, the new scan state, and the error message
latched by `error_token` on error paths (none otherwise).  Control flow
follows the C switch case for case; multi-character operators read their
tails through `matchChar` (C `match`). -/
def next_token_dispatch (c : Char) (s : ScanState) : Token × ScanState × Option String :=
  if isalphaB c || c == '_' then
      let r := identifier s
      (r.1, r.2, none)
    else if isdigitB c then
      let r := number s
      (r.1, r.2, none)
    else if c == '(' then (make_token s .TOKEN_LPAREN, s, none)
    else if c == ')' then (make_token s .TOKEN_RPAREN, s, none)
    else if c == '{' then (make_token s .TOKEN_LBRACE, s, none)
    else if c == '}' then (make_token s .TOKEN_RBRACE, s, none)
    else if c == '[' then (make_token s .TOKEN_LBRACKET, s, none)
    else if c == ']' then (make_token s .TOKEN_RBRACKET, s, none)
    else if c == ';' then (make_token s .TOKEN_SEMICOLON, s, none)
    else if c == ',' then (make_token s .TOKEN_COMMA, s, none)
    else if c == '.' then
      let m1 := (matchChar s '.').1
      let s := (matchChar s '.').2
      if m1 then
        let m2 := (matchChar s '.').1
        let s := (matchChar s '.').2
        if m2 then (make_token s .TOKEN_ELLIPSIS, s, none)
        else error_token s "Invalid token '..'"
      else (make_token s .TOKEN_DOT, s, none)
    else if c == ':' then
      let m := (matchChar s ':').1
      let s := (matchChar s ':').2
      (make_token s (if m then .TOKEN_SCOPE else .TOKEN_COLON), s, none)
    else if c == '?' then (make_token s .TOKEN_QUESTION, s, none)
    else if c == '~' then (make_token s .TOKEN_TILDE, s, none)
    else if c == '^' then
      let m := (matchChar s '=').1
      let s := (matchChar s '=').2
      (make_token s (if m then .TOKEN_XOR_ASSIGN else .TOKEN_XOR), s, none)
    else if c == '+' then
      let m1 := (matchChar s '+').1
      let s := (matchChar s '+').2
      if m1 then (make_token s .TOKEN_INCREMENT, s, none)
      else
        let m2 := (matchChar s '=').1
        let s := (matchChar s '=').2
        if m2 then (make_token s .TOKEN_PLUS_ASSIGN, s, none)
        else (make_token s .TOKEN_PLUS, s, none)
    else if c == '-' then
      let m1 := (matchChar s '-').1
      let s := (matchChar s '-').2
      if m1 then (make_token s .TOKEN_DECREMENT, s, none)
      else
        let m2 := (matchChar s '=').1
        let s := (matchChar s '=').2
        if m2 then (make_token s .TOKEN_MINUS_ASSIGN, s, none)
        else
          let m3 := (matchChar s '>').1
          let s := (matchChar s '>').2
          if m3 then (make_token s .TOKEN_ARROW, s, none)
          else (make_token s .TOKEN_MINUS, s, none)
    else if c == '*' then
      let m1 := (matchChar s '=').1
      let s := (matchChar s '=').2
      if m1 then (make_token s .TOKEN_MULTIPLY_ASSIGN, s, none)
      else
        let m2 := (matchChar s '*').1
        let s := (matchChar s '*').2
        if m2 then
          let m3 := (matchChar s '=').1
          let s := (matchChar s '=').2
          (make_token s (if m3 then .TOKEN_POWER_ASSIGN else .TOKEN_POWER), s, none)
        else (make_token s .TOKEN_MULTIPLY, s, none)
    else if c == '/' then
      let m1 := (matchChar s '=').1
      let s := (matchChar s '=').2
      if m1 then (make_token s .TOKEN_DIVIDE_ASSIGN, s, none)
      else (make_token s .TOKEN_DIVIDE, s, none)
    else if c == '%' then
      let m := (matchChar s '=').1
      let s := (matchChar s '=').2
      (make_token s (if m then .TOKEN_MODULO_ASSIGN else .TOKEN_MODULO), s, none)
    else if c == '\n' then (make_token s .TOKEN_NEWLINE, s, none)
    else if c == '"' then stringTok s
    else if c == '\'' then
      let s := (advance s).2
      let s :=
        if peekc s == '\\' then (advance (advance s).2).2
        else if peekc s != '\'' then (advance s).2
        else s
      let m := (matchChar s '\'').1
      let s := (matchChar s '\'').2
      if !m then error_token s "Unterminated character literal"
      else (make_token s .TOKEN_CHAR, s, none)
    else if c == '!' then
      let m := (matchChar s '=').1
      let s := (matchChar s '=').2
      (make_token s (if m then .TOKEN_NOT_EQUAL else .TOKEN_NOT), s, none)
    else if c == '=' then
      let m1 := (matchChar s '=').1
      let s := (matchChar s '=').2
      if m1 then
        let m2 := (matchChar s '=').1
        let s := (matchChar s '=').2
        (make_token s (if m2 then .TOKEN_STRICT_EQUAL else .TOKEN_EQUAL), s, none)
      else (make_token s .TOKEN_ASSIGN, s, none)
    else if c == '<' then
      let m1 := (matchChar s '<').1
      let s := (matchChar s '<').2
      if m1 then
        let m2 := (matchChar s '=').1
        let s := (matchChar s '=').2
        (make_token s (if m2 then .TOKEN_LSHIFT_ASSIGN else .TOKEN_LSHIFT), s, none)
      else
        let m3 := (matchChar s '=').1
        let s := (matchChar s '=').2
        (make_token s (if m3 then .TOKEN_LESS_EQUAL else .TOKEN_LESS), s, none)
    else if c == '>' then
      let m1 := (matchChar s '>').1
      let s := (matchChar s '>').2
      if m1 then
        let m2 := (matchChar s '=').1
        let s := (matchChar s '=').2
        (make_token s (if m2 then .TOKEN_RSHIFT_ASSIGN else .TOKEN_RSHIFT), s, none)
      else
        let m3 := (matchChar s '=').1
        let s := (matchChar s '=').2
        (make_token s (if m3 then .TOKEN_GREATER_EQUAL else .TOKEN_GREATER), s, none)
    else if c == '&' then
      let m1 := (matchChar s '&').1
      let s := (matchChar s '&').2
      if m1 then (make_token s .TOKEN_AND, s, none)
      else
        let m2 := (matchChar s '=').1
        let s := (matchChar s '=').2
        if m2 then (make_token s .TOKEN_AND_ASSIGN, s, none)
        else (make_token s .TOKEN_BITWISE_AND, s, none)
    else if c == '|' then
      let m1 := (matchChar s '|').1
      let s := (matchChar s '|').2
      if m1 then (make_token s .TOKEN_OR, s, none)
      else
        let m2 := (matchChar s '=').1
        let s := (matchChar s '=').2
        if m2 then (make_token s .TOKEN_OR_ASSIGN, s, none)
        else (make_token s .TOKEN_BITWISE_OR, s, none)
    else if c == '#' then (make_token s .TOKEN_HASH, s, none)
    else error_token s "Unexpected character"

/-- After whitespace is skipped and the lexeme start saved: emit `EOF` at
the end of input, otherwise consume one character and dispatch on it. -/
def next_token_inner (s : ScanState) : Token × ScanState × Option String :=
  if is_at_end s then (make_token s .TOKEN_EOF, s, none)
  else next_token_dispatch (advance s).1 (advance s).2

/-- The body of `lexer_next_token` (src/lexer.c) as a pure function of the
scan fields, returning the token, the new scan state, and the error message
latched by `error_token` on error paths (none otherwise).  Control flow
follows the C switch case for case, split across `next_token_inner` /
`next_token_dispatch`. -/
def next_token_core (s0 : ScanState) : Token × ScanState × Option String :=
  let s := skip_whitespace s0
  let s := { s with start := s.current }
  next_token_inner s

/-- `lexer_create` (arena, string pool, clock and telemetry fields are
behavior-free and omitted). -/
def lexer_create (source : String) (filename : String) : LexState :=
  { scan := { src := source.toList, current := 0, start := 0,
              pos := { line := 1, column := 1, filename := filename } },
    has_error := false, error_message := "", tokens_processed := 0 }

/-- `lexer_next_token`: the scan core plus its effects on the diagnostic
fields — `tokens_processed` is incremented on every call, and an error path
latches `has_error` and overwrites `error_message` (via `strncpy`; the
messages all fit the 256-byte buffer, so truncation cannot occur). -/
def lexer_next_token (l : LexState) : Token × LexState :=
  let (t, sc, err) := next_token_core l.scan
  (t, { scan := sc,
        has_error := err.isSome || l.has_error,
        error_message := err.getD l.error_message,
        tokens_processed := l.tokens_processed + 1 })

/-- `lexer_peek_token`: run `lexer_next_token`, then restore `current`,
`start`, `pos`, `tokens_processed` and `has_error` — everything except
`error_message`, exactly as the C code's save/restore list. -/
def lexer_peek_token (l : LexState) : Token × LexState :=
  let (t, l1) := lexer_next_token l
  (t, { l with error_message := l1.error_message })

/-- `lexer_has_error`. -/
def lexer_has_error (l : LexState) : Bool := l.has_error

/-- `lexer_get_error`. -/
def lexer_get_error (l : LexState) : String := l.error_message

/-- The lexer state after `n` further calls to `lexer_next_token`. -/
def lexIter (l : LexState) : Nat → LexState
  | 0 => l
  | n + 1 => (lexer_next_token (lexIter l n)).2

/-- The `n`-th token `lexer_next_token` produces (0-based). -/
def nthLexToken (l : LexState) (n : Nat) : Token := (lexer_next_token (lexIter l n)).1

/-- Collect tokens up to and including the first `EOF`.  The fuel
`source.length + 1` always suffices: every non-`EOF` call consumes at least
one source byte (proved below as part of C7). -/
def tokenizeAux (fuel : Nat) (l : LexState) : List Token :=
  match fuel with
  | 0 => []
  | n + 1 =>
    let (t, l') := lexer_next_token l
    if t.type == TokenType.TOKEN_EOF then [t]
    else t :: tokenizeAux n l'

/-- The full token stream of a source text, ending at the first `EOF`. -/
def tokenizeAll (source : String) : List Token :=
  tokenizeAux (source.length + 1) (lexer_create source "input")

/-! ## Parser (src/parser.c)

The parser pulls tokens from the lexer one at a time through
`lexer_next_token` and inspects nothing else of the lexer.  By C7 (proved
below) the lexer's output is a finite token list ending with an `EOF` token,
after which every further call returns that same `EOF` token.  The parser is
therefore embedded over that token list: `toks` is the not-yet-consumed
remainder, and when it is exhausted the stream sticks at the current token
(the final `EOF`), which reproduces `lexer_next_token`'s post-`EOF`
behavior.  The node arena is assumed to never fill (every verified run is
far below its bound), so `ast_allocate` cannot return NULL; `nodes_created`
and the wall-clock fields are performance counters no claim reads and are
omitted.  AST nodes' `pos` field (copied from `parser->previous.pos`) is not
referenced by any claim and is omitted from the embedding. -/

/-- The literal-value union of an AST literal node (`ast_create_literal`).
`undef`: the union member was never written (boolean literals, whose
`token_type` is `TOKEN_BOOL_KW`, hit the `default:` case). -/
inductive LitValue where
  | undef : LitValue
  | intVal : Int → LitValue
  | floatVal : Rat → LitValue
  | strVal : List Char → LitValue
  deriving DecidableEq, Repr

/-- The AST node kinds the parser constructs (`ASTNode` of src/parser.h).
`Option AST` models a possibly-NULL `ASTNode*`.  The `assignment`
constructor models an `AST_ASSIGNMENT` node, which stores its target and
value in the `binary` union member with operator `TOKEN_ASSIGN`. -/
inductive AST where
  | literal (token_type : TokenType) (value : LitValue)
  | identifier (name : List Char)
  | binary (left : Option AST) (op : TokenType) (right : Option AST)
  | unary (op : TokenType) (operand : Option AST)
  | assignment (target : Option AST) (value : Option AST)
  | expression_stmt (expr : Option AST)
  | var_decl (declared_type : TokenType) (name : List Char) (initializer : Option AST)
  | return_stmt (value : Option AST)
  | program (statements : List AST)
  deriving Repr

/-- The parser's structured error record: the C code formats
`"Error at line %d, column %d: %s"` into `error_message`; the embedding
keeps the three formatted components. -/
structure PErrorMsg where
  line : Int
  column : Int
  message : String
  deriving DecidableEq, Repr

/-- `Parser` (src/parser.h) minus the arena and performance counters.
`src` is the source buffer the token `start` offsets point into (the C
parser reads lexemes through `token.start`).  `error_message` is `none`
while the C buffer still holds its initial empty string. -/
structure ParserState where
  src : List Char
  toks : List Token
  current : Token
  previous : Token
  had_error : Bool
  panic_mode : Bool
  error_message : Option PErrorMsg
  deriving DecidableEq, Repr

/-- One `lexer_next_token` call as seen by the parser: take the head of the
remaining list; on an exhausted list the stream sticks at the current token
(which is the final `EOF` for every stream `tokenizeAll` produces). -/
def pullToken (p : ParserState) : ParserState :=
  match p.toks with
  | [] => p
  | t :: ts => { p with current := t, toks := ts }

/-- `parser_error`: suppressed in panic mode, otherwise sets `had_error`,
enters panic mode and records the message at the current token's position. -/
def parser_error (p : ParserState) (message : String) : ParserState :=
  if p.panic_mode then p
  else
    let e : PErrorMsg :=
      { line := p.current.pos.line, column := p.current.pos.column, message := message }
    { p with panic_mode := true, had_error := true, error_message := some e }

theorem parser_error_toks (p : ParserState) (m : String) :
    (parser_error p m).toks = p.toks := by
  unfold parser_error
  split <;> rfl

/-- The `while (current.type == TOKEN_ERROR)` loop of `advance`
(src/parser.c): report each lexical error token and pull the next token.
Structural on an inert gas bound (each iteration consumes one token of
`toks`); the exhausted-list guard is unreachable for streams ending in
`EOF` (the sticky token is then `EOF`, never `ERROR`). -/
def skipErrorTokensGas : Nat → ParserState → ParserState
  | 0, p => p
  | gas + 1, p =>
    if p.current.type == TokenType.TOKEN_ERROR then
      let p := parser_error p "Lexical error"
      if p.toks.isEmpty then p
      else skipErrorTokensGas gas (pullToken p)
    else p

/-- The error-token-skipping loop with its inert gas bound. -/
def skipErrorTokens (p : ParserState) : ParserState :=
  skipErrorTokensGas p.toks.length p

theorem pullToken_toks_le (p : ParserState) : (pullToken p).toks.length ≤ p.toks.length := by
  unfold pullToken
  cases h : p.toks with
  | nil => simp [h]
  | cons t ts => simp [h]

theorem skipErrorTokensGas_toks_le (gas : Nat) (p : ParserState) :
    (skipErrorTokensGas gas p).toks.length ≤ p.toks.length := by
  induction gas generalizing p with
  | zero => exact Nat.le_refl _
  | succ gas ih =>
    unfold skipErrorTokensGas
    split
    · dsimp only
      split
      · rw [parser_error_toks]
      · refine le_trans (ih _) ?_
        refine le_trans (pullToken_toks_le _) ?_
        rw [parser_error_toks]
    · exact Nat.le_refl _

theorem skipErrorTokens_toks_le (p : ParserState) :
    (skipErrorTokens p).toks.length ≤ p.toks.length :=
  skipErrorTokensGas_toks_le _ p

/-- `advance` (src/parser.c): save `previous`, pull the next token, then
skip and report any `ERROR` tokens. -/
def padvance (p : ParserState) : ParserState :=
  skipErrorTokens (pullToken { p with previous := p.current })

theorem padvance_toks_le (p : ParserState) :
    (padvance p).toks.length ≤ p.toks.length := by
  unfold padvance
  refine le_trans (skipErrorTokens_toks_le _) ?_
  unfold pullToken
  cases p.toks <;> simp

/-- `check`. -/
def pcheck (p : ParserState) (t : TokenType) : Bool := p.current.type == t

/-- `match` (src/parser.c, renamed: `match` is a Lean keyword). -/
def pmatch (p : ParserState) (t : TokenType) : Bool × ParserState :=
  if pcheck p t then (true, padvance p) else (false, p)

/-- `consume`. -/
def pconsume (p : ParserState) (t : TokenType) (message : String) : Bool × ParserState :=
  if p.current.type == t then (true, padvance p)
  else (false, parser_error p message)

/-- The loop of `synchronize`, structural on an inert gas bound (each
iteration consumes one token).  The exhausted-list guard is unreachable for
streams ending in `EOF` (the sticky token is `EOF`, caught by the first
test). -/
def synchronizeLoopGas : Nat → ParserState → ParserState
  | 0, p => p
  | gas + 1, p =>
    if p.current.type == TokenType.TOKEN_EOF then p
    else if p.previous.type == TokenType.TOKEN_SEMICOLON then p
    else if p.current.type == TokenType.TOKEN_CLASS || p.current.type == TokenType.TOKEN_FUNCTION ||
            p.current.type == TokenType.TOKEN_VAR || p.current.type == TokenType.TOKEN_FOR ||
            p.current.type == TokenType.TOKEN_IF || p.current.type == TokenType.TOKEN_WHILE ||
            p.current.type == TokenType.TOKEN_RETURN then p
    else if p.toks.isEmpty then p
    else synchronizeLoopGas gas (padvance p)

/-- The synchronization loop with its inert gas bound. -/
def synchronizeLoop (p : ParserState) : ParserState :=
  synchronizeLoopGas p.toks.length p

/-- `synchronize`: leave panic mode, then discard tokens to a statement
boundary. -/
def synchronize (p : ParserState) : ParserState :=
  synchronizeLoop { p with panic_mode := false }

/-- The identifier-name copy (`strncpy` into a 256-byte stack buffer, so at
most 255 characters of the lexeme survive). -/
def nameFromToken (p : ParserState) (t : Token) : List Char :=
  (p.src.drop t.start).take (min t.length 255)

/-- `ast_create_literal`: re-decodes the literal from the source through the
token's `start` pointer (INTEGER uses `strtoll(..., 10)`; STRING drops the
two quotes).  Every other token type leaves the value union unwritten. -/
def ast_create_literal (p : ParserState) (type : TokenType) (token : Token) : AST :=
  let v : LitValue :=
    match type with
    | .TOKEN_INTEGER => .intVal (strtoll (p.src.drop token.start) 10)
    | .TOKEN_FLOAT => .floatVal (strtodQ (p.src.drop token.start))
    | .TOKEN_STRING => .strVal ((p.src.drop (token.start + 1)).take (token.length - 2))
    | _ => .undef
  AST.literal type v

/-! The recursive-descent functions.  The C recursion is not structural (it
descends both through the precedence ladder and through consumed tokens), so
each function takes a `fuel` argument that every call decrements; `fuel` is
exhausted on no run the development evaluates (`parseSource` below supplies
fuel far above the recursion depth the token count allows). -/

mutual

/-- `primary` (src/parser.c): literals, identifiers, parenthesized
expressions; anything else records "Expected expression" and yields NULL. -/
def primary (fuel : Nat) (p : ParserState) : Option AST × ParserState :=
  match fuel with
  | 0 => (none, p)
  | fuel + 1 =>
    let (mt, p) := pmatch p .TOKEN_TRUE
    if mt then (some (ast_create_literal p .TOKEN_BOOL_KW p.previous), p)
    else
      let (mf, p) := pmatch p .TOKEN_FALSE
      if mf then (some (ast_create_literal p .TOKEN_BOOL_KW p.previous), p)
      else
        let (mn, p) := pmatch p .TOKEN_NULL
        if mn then (some (ast_create_literal p .TOKEN_NULL p.previous), p)
        else
          let (mi, p) := pmatch p .TOKEN_INTEGER
          if mi then (some (ast_create_literal p .TOKEN_INTEGER p.previous), p)
          else
            let (mfl, p) := pmatch p .TOKEN_FLOAT
            if mfl then (some (ast_create_literal p .TOKEN_FLOAT p.previous), p)
            else
              let (ms, p) := pmatch p .TOKEN_STRING
              if ms then (some (ast_create_literal p .TOKEN_STRING p.previous), p)
              else
                let (mid, p) := pmatch p .TOKEN_IDENTIFIER
                if mid then (some (AST.identifier (nameFromToken p p.previous)), p)
                else
                  let (ml, p) := pmatch p .TOKEN_LPAREN
                  if ml then
                    let (e, p) := expression fuel p
                    let (_, p) := pconsume p .TOKEN_RPAREN "Expected ')' after expression"
                    (e, p)
                  else (none, parser_error p "Expected expression")

/-- `unary`: prefix `!` and `-`, right-recursive. -/
def unary (fuel : Nat) (p : ParserState) : Option AST × ParserState :=
  match fuel with
  | 0 => (none, p)
  | fuel + 1 =>
    let (mn, p) := pmatch p .TOKEN_NOT
    if mn then
      let op := p.previous.type
      let (r, p) := unary fuel p
      (some (AST.unary op r), p)
    else
      let (mm, p) := pmatch p .TOKEN_MINUS
      if mm then
        let op := p.previous.type
        let (r, p) := unary fuel p
        (some (AST.unary op r), p)
      else primary fuel p

/-- The `while` loop of `factor`: `/`, `*`, `%`, left-associative. -/
def factorLoop (fuel : Nat) (expr : Option AST) (p : ParserState) : Option AST × ParserState :=
  match fuel with
  | 0 => (expr, p)
  | fuel + 1 =>
    let (m1, p) := pmatch p .TOKEN_DIVIDE
    if m1 then
      let op := p.previous.type
      let (r, p) := unary fuel p
      factorLoop fuel (some (AST.binary expr op r)) p
    else
      let (m2, p) := pmatch p .TOKEN_MULTIPLY
      if m2 then
        let op := p.previous.type
        let (r, p) := unary fuel p
        factorLoop fuel (some (AST.binary expr op r)) p
      else
        let (m3, p) := pmatch p .TOKEN_MODULO
        if m3 then
          let op := p.previous.type
          let (r, p) := unary fuel p
          factorLoop fuel (some (AST.binary expr op r)) p
        else (expr, p)

/-- `factor`. -/
def factor (fuel : Nat) (p : ParserState) : Option AST × ParserState :=
  match fuel with
  | 0 => (none, p)
  | fuel + 1 =>
    let (e, p) := unary fuel p
    factorLoop fuel e p

/-- The `while` loop of `term`: `-`, `+` (in C's test order), left-associative. -/
def termLoop (fuel : Nat) (expr : Option AST) (p : ParserState) : Option AST × ParserState :=
  match fuel with
  | 0 => (expr, p)
  | fuel + 1 =>
    let (m1, p) := pmatch p .TOKEN_MINUS
    if m1 then
      let op := p.previous.type
      let (r, p) := factor fuel p
      termLoop fuel (some (AST.binary expr op r)) p
    else
      let (m2, p) := pmatch p .TOKEN_PLUS
      if m2 then
        let op := p.previous.type
        let (r, p) := factor fuel p
        termLoop fuel (some (AST.binary expr op r)) p
      else (expr, p)

/-- `term`. -/
def term (fuel : Nat) (p : ParserState) : Option AST × ParserState :=
  match fuel with
  | 0 => (none, p)
  | fuel + 1 =>
    let (e, p) := factor fuel p
    termLoop fuel e p

/-- The `while` loop of `comparison`: `>`, `>=`, `<`, `<=`. -/
def comparisonLoop (fuel : Nat) (expr : Option AST) (p : ParserState) :
    Option AST × ParserState :=
  match fuel with
  | 0 => (expr, p)
  | fuel + 1 =>
    let (m1, p) := pmatch p .TOKEN_GREATER
    if m1 then
      let op := p.previous.type
      let (r, p) := term fuel p
      comparisonLoop fuel (some (AST.binary expr op r)) p
    else
      let (m2, p) := pmatch p .TOKEN_GREATER_EQUAL
      if m2 then
        let op := p.previous.type
        let (r, p) := term fuel p
        comparisonLoop fuel (some (AST.binary expr op r)) p
      else
        let (m3, p) := pmatch p .TOKEN_LESS
        if m3 then
          let op := p.previous.type
          let (r, p) := term fuel p
          comparisonLoop fuel (some (AST.binary expr op r)) p
        else
          let (m4, p) := pmatch p .TOKEN_LESS_EQUAL
          if m4 then
            let op := p.previous.type
            let (r, p) := term fuel p
            comparisonLoop fuel (some (AST.binary expr op r)) p
          else (expr, p)

/-- `comparison`. -/
def comparison (fuel : Nat) (p : ParserState) : Option AST × ParserState :=
  match fuel with
  | 0 => (none, p)
  | fuel + 1 =>
    let (e, p) := term fuel p
    comparisonLoop fuel e p

/-- The `while` loop of `equality`: `!=`, `==`. -/
def equalityLoop (fuel : Nat) (expr : Option AST) (p : ParserState) :
    Option AST × ParserState :=
  match fuel with
  | 0 => (expr, p)
  | fuel + 1 =>
    let (m1, p) := pmatch p .TOKEN_NOT_EQUAL
    if m1 then
      let op := p.previous.type
      let (r, p) := comparison fuel p
      equalityLoop fuel (some (AST.binary expr op r)) p
    else
      let (m2, p) := pmatch p .TOKEN_EQUAL
      if m2 then
        let op := p.previous.type
        let (r, p) := comparison fuel p
        equalityLoop fuel (some (AST.binary expr op r)) p
      else (expr, p)

/-- `equality`. -/
def equality (fuel : Nat) (p : ParserState) : Option AST × ParserState :=
  match fuel with
  | 0 => (none, p)
  | fuel + 1 =>
    let (e, p) := comparison fuel p
    equalityLoop fuel e p

/-- The `while` loop of `logical_and`: `&&`. -/
def logicalAndLoop (fuel : Nat) (expr : Option AST) (p : ParserState) :
    Option AST × ParserState :=
  match fuel with
  | 0 => (expr, p)
  | fuel + 1 =>
    let (m, p) := pmatch p .TOKEN_AND
    if m then
      let op := p.previous.type
      let (r, p) := equality fuel p
      logicalAndLoop fuel (some (AST.binary expr op r)) p
    else (expr, p)

/-- `logical_and`. -/
def logical_and (fuel : Nat) (p : ParserState) : Option AST × ParserState :=
  match fuel with
  | 0 => (none, p)
  | fuel + 1 =>
    let (e, p) := equality fuel p
    logicalAndLoop fuel e p

/-- The `while` loop of `logical_or`: `||`. -/
def logicalOrLoop (fuel : Nat) (expr : Option AST) (p : ParserState) :
    Option AST × ParserState :=
  match fuel with
  | 0 => (expr, p)
  | fuel + 1 =>
    let (m, p) := pmatch p .TOKEN_OR
    if m then
      let op := p.previous.type
      let (r, p) := logical_and fuel p
      logicalOrLoop fuel (some (AST.binary expr op r)) p
    else (expr, p)

/-- `logical_or`. -/
def logical_or (fuel : Nat) (p : ParserState) : Option AST × ParserState :=
  match fuel with
  | 0 => (none, p)
  | fuel + 1 =>
    let (e, p) := logical_and fuel p
    logicalOrLoop fuel e p

/-- `assignment`: right-recursive; a non-identifier target records "Invalid
assignment target" and the left expression is returned unchanged.  When the
left expression is NULL the C code dereferences a null pointer
(`expr->type`); that branch is unreachable in every run verified here and
the embedding returns the NULL expression unchanged. -/
def assignment (fuel : Nat) (p : ParserState) : Option AST × ParserState :=
  match fuel with
  | 0 => (none, p)
  | fuel + 1 =>
    let (expr, p) := logical_or fuel p
    let (m, p) := pmatch p .TOKEN_ASSIGN
    if m then
      let (value, p) := assignment fuel p
      match expr with
      | some (AST.identifier n) => (some (AST.assignment (some (AST.identifier n)) value), p)
      | some e => (some e, parser_error p "Invalid assignment target")
      | none => (none, p)
    else (expr, p)

/-- `expression`. -/
def expression (fuel : Nat) (p : ParserState) : Option AST × ParserState :=
  match fuel with
  | 0 => (none, p)
  | fuel + 1 => assignment fuel p

end

/-- `var_declaration` (src/parser.c): the declared type is `previous.type`;
the `consume` results are discarded exactly as C discards them, so the name
is copied from `previous` whether or not an identifier was present. -/
def var_declaration (fuel : Nat) (p : ParserState) : Option AST × ParserState :=
  let declared := p.previous.type
  let (_, p) := pconsume p .TOKEN_IDENTIFIER "Expected variable name"
  let name := nameFromToken p p.previous
  let (m, p) := pmatch p .TOKEN_ASSIGN
  let (init, p) := if m then expression fuel p else (none, p)
  let (_, p) := pconsume p .TOKEN_SEMICOLON "Expected ';' after variable declaration"
  (some (AST.var_decl declared name init), p)

/-- `return_statement`. -/
def return_statement (fuel : Nat) (p : ParserState) : Option AST × ParserState :=
  let (value, p) :=
    if pcheck p .TOKEN_SEMICOLON then ((none : Option AST), p)
    else expression fuel p
  let (_, p) := pconsume p .TOKEN_SEMICOLON "Expected ';' after return value"
  (some (AST.return_stmt value), p)

/-- `expression_statement`. -/
def expression_statement (fuel : Nat) (p : ParserState) : Option AST × ParserState :=
  let (e, p) := expression fuel p
  let (_, p) := pconsume p .TOKEN_SEMICOLON "Expected ';' after expression"
  (some (AST.expression_stmt e), p)

/-- `statement`. -/
def statement (fuel : Nat) (p : ParserState) : Option AST × ParserState :=
  let (m, p) := pmatch p .TOKEN_RETURN
  if m then return_statement fuel p
  else expression_statement fuel p

/-- `declaration`: a type keyword opens a variable declaration (the `||` of
C `match` calls short-circuits left to right). -/
def declaration (fuel : Nat) (p : ParserState) : Option AST × ParserState :=
  let (m1, p) := pmatch p .TOKEN_INT
  if m1 then var_declaration fuel p
  else
    let (m2, p) := pmatch p .TOKEN_FLOAT_KW
    if m2 then var_declaration fuel p
    else
      let (m3, p) := pmatch p .TOKEN_STRING_KW
      if m3 then var_declaration fuel p
      else
        let (m4, p) := pmatch p .TOKEN_BOOL_KW
        if m4 then var_declaration fuel p
        else statement fuel p

/-- The top-level loop of `parser_parse`: until `EOF` **or a recorded
error**, skip newlines, parse a declaration, append it when non-NULL, and
synchronize after panics.  (The 1000-slot statement array is assumed large
enough, as in every verified run.) -/
def parseLoop (fuel : Nat) (stmts : List AST) (p : ParserState) : List AST × ParserState :=
  match fuel with
  | 0 => (stmts, p)
  | fuel + 1 =>
    if !(pcheck p .TOKEN_EOF) && !p.had_error then
      let (mn, p) := pmatch p .TOKEN_NEWLINE
      if mn then parseLoop fuel stmts p
      else
        let (decl, p) := declaration fuel p
        let stmts :=
          match decl with
          | some d => stmts ++ [d]
          | none => stmts
        let p := if p.panic_mode then synchronize p else p
        parseLoop fuel stmts p
    else (stmts, p)

/-- `parser_parse`: always returns a `Program` node. -/
def parser_parse (fuel : Nat) (p : ParserState) : AST × ParserState :=
  let (stmts, p) := parseLoop fuel [] p
  (AST.program stmts, p)

/-- The newline-skip loop of `parser_create` (it calls `lexer_next_token`
directly, with no error-token skipping and no `previous` update).
Structural on an inert gas bound; the exhausted-list guard is unreachable
for streams ending in `EOF`. -/
def skipLeadingNewlinesGas : Nat → ParserState → ParserState
  | 0, p => p
  | gas + 1, p =>
    if p.current.type == TokenType.TOKEN_NEWLINE && !(p.current.type == TokenType.TOKEN_EOF) then
      if p.toks.isEmpty then p
      else skipLeadingNewlinesGas gas (pullToken p)
    else p

/-- The newline-skip loop with its inert gas bound. -/
def skipLeadingNewlines (p : ParserState) : ParserState :=
  skipLeadingNewlinesGas p.toks.length p

/-- `parser_create` over a source buffer and its token stream: prime the
first token, then skip leading newlines.  C leaves `previous` uninitialized
until the first `advance`; the model fills it with an inert `UNKNOWN` token
(no verified run reads `previous` before the first `advance`). -/
def parser_create (src : List Char) (toks : List Token) : ParserState :=
  let dummy : Token :=
    { type := .TOKEN_UNKNOWN, start := 0, length := 0,
      pos := { line := 0, column := 0, filename := "" }, value := .undef }
  let p : ParserState :=
    { src := src, toks := toks, current := dummy, previous := dummy,
      had_error := false, panic_mode := false, error_message := none }
  skipLeadingNewlines (pullToken p)

/-- Fuel amply covering the deepest recursion a stream of
`source.length + 1` tokens can drive (each consumed token or precedence
level costs one unit; 32 units per token is far beyond the ladder's depth). -/
def parseFuel (source : String) : Nat := 32 * (source.length + 2)

/-- The whole front end on a source text: tokenize, create the parser,
parse. -/
def parseSource (source : String) : AST × ParserState :=
  let toks := tokenizeAll source
  let p := parser_create source.toList toks
  parser_parse (parseFuel source) p

/-- `parser_has_error`. -/
def parser_has_error (p : ParserState) : Bool := p.had_error

/-! ## Code generator (src/codegen.c)

Output is modelled as an accumulated string instead of a `FILE*`;
`fprintf`/`emit_line` append to it.  The `%g` rendering of doubles is not
modelled textually (no claim reads a float's rendering); everything else is
the C format string verbatim.  The generation-time clock is omitted. -/

/-- `OutputFormat` (src/codegen.h). -/
inductive OutputFormat where
  | OUTPUT_C | OUTPUT_JAVASCRIPT | OUTPUT_PYTHON | OUTPUT_BYTECODE
  deriving DecidableEq, Repr

/-- `CodeGenerator` (src/codegen.h) with the output file replaced by the
text written so far. -/
structure CodeGenState where
  format : OutputFormat
  indent_level : Int
  had_error : Bool
  error_message : String
  lines_generated : Int
  variables_declared : Int
  functions_generated : Int
  output : String
  deriving DecidableEq, Repr

/-- `codegen_create` (the `fopen` is assumed to succeed; an output path is
not part of the model). -/
def codegen_create (format : OutputFormat) : CodeGenState :=
  { format := format, indent_level := 0, had_error := false, error_message := "",
    lines_generated := 0, variables_declared := 0, functions_generated := 0, output := "" }

/-- An `fprintf` to the output file. -/
def emit (g : CodeGenState) (text : String) : CodeGenState :=
  { g with output := g.output ++ text }

/-- `emit_indent`: four spaces per indent level (no spaces for non-positive
levels, as the C `for` loop runs zero times). -/
def emit_indent (g : CodeGenState) : CodeGenState :=
  emit g (String.join (List.replicate g.indent_level.toNat "    "))

/-- `emit_line`. -/
def emit_line (g : CodeGenState) (line : String) : CodeGenState :=
  let g := emit_indent g
  let g := emit g (line ++ "\n")
  { g with lines_generated := g.lines_generated + 1 }

/-- `codegen_error` (the messages fit the 256-byte buffer, so the `strncpy`
truncation cannot occur). -/
def codegen_error (g : CodeGenState) (message : String) : CodeGenState :=
  { g with had_error := true, error_message := message }

/-- The text `%g` would print for the modelled float value; a placeholder
(no claim inspects it), kept abstract in one definition so the
approximation is localized. -/
def floatRepr (q : Rat) : String := toString q

/-- `generate_c_literal`, switching on the literal's `token_type`.  The C
code prints the matching union member; the parser only builds literals whose
value member matches the type (INTEGER/intVal, FLOAT/floatVal,
STRING/strVal), so the fallback arms (printing an unwritten union member —
indeterminate in C) are unreachable in verified runs and print the zero
value. -/
def generate_c_literal (g : CodeGenState) (tt : TokenType) (v : LitValue) : CodeGenState :=
  match tt with
  | .TOKEN_INTEGER =>
    emit g (match v with | .intVal i => toString i | _ => "0")
  | .TOKEN_FLOAT =>
    emit g (match v with | .floatVal q => floatRepr q | _ => "0")
  | .TOKEN_STRING =>
    emit g (match v with
            | .strVal cs => "\"" ++ String.mk cs ++ "\""
            | _ => "\"\"")
  | .TOKEN_TRUE => emit g "true"
  | .TOKEN_FALSE => emit g "false"
  | .TOKEN_NULL => emit g "NULL"
  | _ => codegen_error g "Unknown literal type"

/-- The operator arm of `generate_c_binary`'s switch. -/
def emit_c_binop (g : CodeGenState) (op : TokenType) : CodeGenState :=
  match op with
  | .TOKEN_PLUS => emit g " + "
  | .TOKEN_MINUS => emit g " - "
  | .TOKEN_MULTIPLY => emit g " * "
  | .TOKEN_DIVIDE => emit g " / "
  | .TOKEN_MODULO => emit g " % "
  | .TOKEN_EQUAL => emit g " == "
  | .TOKEN_NOT_EQUAL => emit g " != "
  | .TOKEN_LESS => emit g " < "
  | .TOKEN_LESS_EQUAL => emit g " <= "
  | .TOKEN_GREATER => emit g " > "
  | .TOKEN_GREATER_EQUAL => emit g " >= "
  | .TOKEN_AND => emit g " && "
  | .TOKEN_OR => emit g " || "
  | .TOKEN_ASSIGN => emit g " = "
  | _ => codegen_error g "Unknown binary operator"

/-! `generate_c_expression` with `generate_c_binary` inlined at its two call
sites (`AST_BINARY` and `AST_ASSIGNMENT` both route to it; an assignment
node's operator field holds `TOKEN_ASSIGN`).  A NULL node emits nothing.
Split into a mutual pair over `AST` and `Option AST` so the recursion is
structural (and so computes in the kernel). -/
mutual

/-- The non-NULL cases of `generate_c_expression`. -/
def generate_c_expression_node (g : CodeGenState) : AST → CodeGenState
  | AST.literal tt v => generate_c_literal g tt v
  | AST.identifier name => emit g (String.mk name)
  | AST.binary l op r =>
    let g := emit g "("
    let g := generate_c_expression g l
    let g := emit_c_binop g op
    let g := generate_c_expression g r
    emit g ")"
  | AST.assignment l r =>
    let g := emit g "("
    let g := generate_c_expression g l
    let g := emit_c_binop g .TOKEN_ASSIGN
    let g := generate_c_expression g r
    emit g ")"
  | _ => codegen_error g "Unknown expression type"

/-- `generate_c_expression` on a possibly-NULL node. -/
def generate_c_expression (g : CodeGenState) : Option AST → CodeGenState
  | none => g
  | some n => generate_c_expression_node g n

end

/-- `generate_c_var_declaration`: the type-keyword table, the name, an
optional initializer. -/
def generate_c_var_declaration (g : CodeGenState) (t : TokenType) (name : List Char)
    (init : Option AST) : CodeGenState :=
  let g := emit_indent g
  let g :=
    match t with
    | .TOKEN_INT => emit g "int "
    | .TOKEN_FLOAT_KW => emit g "double "
    | .TOKEN_STRING_KW => emit g "char* "
    | .TOKEN_BOOL_KW => emit g "bool "
    | _ => emit g "int "
  let g := emit g (String.mk name)
  let g :=
    match init with
    | some e =>
      let g := emit g " = "
      generate_c_expression g (some e)
    | none => g
  let g := emit g ";\n"
  { g with lines_generated := g.lines_generated + 1,
           variables_declared := g.variables_declared + 1 }

/-- `generate_c_statement`. -/
def generate_c_statement (g : CodeGenState) : Option AST → CodeGenState
  | none => g
  | some (AST.var_decl t name init) => generate_c_var_declaration g t name init
  | some (AST.expression_stmt e) =>
    let g := emit_indent g
    let g := generate_c_expression g e
    let g := emit g ";\n"
    { g with lines_generated := g.lines_generated + 1 }
  | some (AST.return_stmt v) =>
    let g := emit_indent g
    let g := emit g "return"
    let g :=
      match v with
      | some e =>
        let g := emit g " "
        generate_c_expression g (some e)
      | none => g
    let g := emit g ";\n"
    { g with lines_generated := g.lines_generated + 1 }
  | some _ => codegen_error g "Unknown statement type"

/-- `generate_c_program`: headers, `int main() {`, the statements, a
trailing `return 0;` and the closing brace.  The C code reads the `program`
union member of whatever node it is handed; a non-program argument reads an
unwritten union (indeterminate) and is unreachable in the pipeline, so the
model leaves the generator unchanged there. -/
def generate_c_program (g : CodeGenState) (node : AST) : CodeGenState :=
  match node with
  | AST.program stmts =>
    let g := emit_line g "#include <stdio.h>"
    let g := emit_line g "#include <stdlib.h>"
    let g := emit_line g "#include <stdbool.h>"
    let g := emit_line g "#include <string.h>"
    let g := emit_line g ""
    let g := emit_line g "int main() \x7b"
    let g := { g with indent_level := g.indent_level + 1 }
    let g := stmts.foldl (fun g st => generate_c_statement g (some st)) g
    let g := emit_line g "return 0;"
    let g := { g with indent_level := g.indent_level - 1 }
    emit_line g "\x7d"
  | _ => g

/-- `codegen_generate`: C-like output runs the generator and reports
`!had_error`; the other three formats record a structured "not implemented"
failure and return false.  A NULL AST returns false. -/
def codegen_generate (g : CodeGenState) (ast : Option AST) : Bool × CodeGenState :=
  match ast with
  | none => (false, g)
  | some a =>
    match g.format with
    | .OUTPUT_C =>
      let g := generate_c_program g a
      (!g.had_error, g)
    | .OUTPUT_JAVASCRIPT => (false, codegen_error g "JavaScript output not implemented yet")
    | .OUTPUT_PYTHON => (false, codegen_error g "Python output not implemented yet")
    | .OUTPUT_BYTECODE => (false, codegen_error g "Bytecode output not implemented yet")

/-- `codegen_has_error`. -/
def codegen_has_error (g : CodeGenState) : Bool := g.had_error

/-- `codegen_get_error`. -/
def codegen_get_error (g : CodeGenState) : String := g.error_message

/-- Shorthand for the integer-literal node the parser builds. -/
def intLit (i : Int) : Option AST := some (AST.literal .TOKEN_INTEGER (.intVal i))

/-- Shorthand for a binary node with present operands. -/
def binN (l : Option AST) (op : TokenType) (r : Option AST) : Option AST :=
  some (AST.binary l op r)

/-- The state `lexer_next_token` saves the lexeme start from: after
whitespace skipping, with `start` latched to the cursor. -/
def postWs (s : ScanState) : ScanState :=
  { skip_whitespace s with start := (skip_whitespace s).current }

/-- What every scanning helper of the lexer does to the state: the buffer
and saved start are untouched, the cursor moves forward, the line number
never decreases, a positive column stays positive, the filename is
untouched, and — when no newline lies in the consumed span — the line is
unchanged and the column advances by exactly the number of consumed bytes.
This is the invariant behind C7 (progress) and C8 (token positions). -/
structure ScanStep (s t : ScanState) : Prop where
  src_eq : t.src = s.src
  start_eq : t.start = s.start
  mono : s.current ≤ t.current
  line_mono : s.pos.line ≤ t.pos.line
  col_pos : 1 ≤ s.pos.column → 1 ≤ t.pos.column
  fname : t.pos.filename = s.pos.filename
  track : (∀ i, s.current ≤ i → i < t.current → s.src.getD i nulChar ≠ '\n') →
      t.pos.line = s.pos.line ∧
      (t.pos.column : Int) = s.pos.column + ((t.current : Int) - (s.current : Int))

/-- What one `next_token_core` call guarantees, relative to the state `s1`
at the start of the lexeme (after whitespace, `start` latched): the result
state extends `s1` by a `ScanStep`; and either the token is `EOF` with
nothing consumed (exactly when the lexeme start is the end of input), or at
least one byte was consumed and the token is an `ERROR` token or a
`make_token` token of the final state (with its decoded value, non-`EOF`,
non-`ERROR`). -/
def NextTokenSpec (s1 : ScanState) (r : Token × ScanState × Option String) : Prop :=
  ScanStep s1 r.2.1 ∧
  ((r.1 = make_token s1 .TOKEN_EOF ∧ r.2.1 = s1 ∧ is_at_end s1 = true) ∨
   (s1.current < r.2.1.current ∧
    (r.1.type = .TOKEN_ERROR ∨
     (r.1 = { make_token r.2.1 r.1.type with value := r.1.value } ∧
      r.1.type ≠ .TOKEN_EOF ∧ r.1.type ≠ .TOKEN_ERROR))))

/-! ## Theorems for the claims -/

/-- C1.  The spec says a leading `0` followed by `x`/`b`/`o` scans a
hex/binary/octal integer, and that `0xFF + 0b10` lexes and parses to
`Binary(+, Literal(INTEGER, 255), Literal(INTEGER, 2))`.  The code slips:
`number()` is entered only after `lexer_next_token` has already consumed the
first digit, so its prefix test `peek == '0'` looks at the second character
and never fires on `0x...`.  On `0xFF + 0b10` the lexer emits
`INTEGER "0" (value 0)`, `IDENTIFIER "xFF"`, `PLUS`, `INTEGER "0"`,
`IDENTIFIER "b10"`, `EOF`, and the parse is an expression statement holding
the literal 0 (with a recorded error), not the claimed addition of 255 and 2. -/
theorem C1_numeric_prefix_code_bug :
    (tokenizeAll "0xFF + 0b10").map (fun t => (t.type, t.value)) =
      [(.TOKEN_INTEGER, .intVal 0), (.TOKEN_IDENTIFIER, .undef), (.TOKEN_PLUS, .undef),
       (.TOKEN_INTEGER, .intVal 0), (.TOKEN_IDENTIFIER, .undef), (.TOKEN_EOF, .undef)] ∧
    (parseSource "0xFF + 0b10").1 =
      AST.program [AST.expression_stmt (intLit 0)] ∧
    (parseSource "0xFF + 0b10").2.had_error = true :=
  by
  repeat' apply And.intro
  all_goals rfl

/-- C2.  The spec says parsing resumes after synchronization, so that on
`int x 5;\nint y = 7;` the second statement parses as
`VarDecl(INT, "y", Literal(INTEGER, 7))` and is the single retained
statement.  The code's top-level loop exits as soon as `had_error` is set
(`while (!check(EOF) && !parser->had_error)`), so after the first
statement's error the second statement is never parsed: the single retained
statement is the partial `VarDecl(INT, "x", <no initializer>)` from the
failing declaration.  (`Program.statements` does have length 1 and
`had_error` is true, but with the wrong statement.) -/
theorem C2_parser_stops_after_first_error :
    (parseSource "int x 5;\nint y = 7;").1 =
      AST.program [AST.var_decl .TOKEN_INT ['x'] none] ∧
    (parseSource "int x 5;\nint y = 7;").2.had_error = true ∧
    (parseSource "int x 5;\nint y = 7;").2.error_message =
      some { line := 1, column := 7, message := "Expected ';' after variable declaration" } :=
  by
  repeat' apply And.intro
  all_goals rfl

/-- C4.  The precedence ladder and left associativity, witnessed level by
level: the claim's own example `return 1 + 2 * 3;` (multiplication binds
tighter than addition), left associativity inside the term and factor
levels, and each adjacent pair of the remaining levels (comparison below
term, equality below comparison, logical-and below equality, logical-or
below logical-and). -/
theorem C4_precedence_ladder :
    (parseSource "return 1 + 2 * 3;").1 =
      AST.program [AST.return_stmt (binN (intLit 1) .TOKEN_PLUS
        (binN (intLit 2) .TOKEN_MULTIPLY (intLit 3)))] ∧
    (parseSource "return 1 + 2 * 3;").2.had_error = false ∧
    (parseSource "return 1 - 2 - 3;").1 =
      AST.program [AST.return_stmt (binN (binN (intLit 1) .TOKEN_MINUS (intLit 2))
        .TOKEN_MINUS (intLit 3))] ∧
    (parseSource "return 1 / 2 % 3;").1 =
      AST.program [AST.return_stmt (binN (binN (intLit 1) .TOKEN_DIVIDE (intLit 2))
        .TOKEN_MODULO (intLit 3))] ∧
    (parseSource "return 1 + 2 < 3 + 4;").1 =
      AST.program [AST.return_stmt (binN (binN (intLit 1) .TOKEN_PLUS (intLit 2))
        .TOKEN_LESS (binN (intLit 3) .TOKEN_PLUS (intLit 4)))] ∧
    (parseSource "return 1 < 2 == 3 < 4;").1 =
      AST.program [AST.return_stmt (binN (binN (intLit 1) .TOKEN_LESS (intLit 2))
        .TOKEN_EQUAL (binN (intLit 3) .TOKEN_LESS (intLit 4)))] ∧
    (parseSource "return 1 == 2 && 3 == 4;").1 =
      AST.program [AST.return_stmt (binN (binN (intLit 1) .TOKEN_EQUAL (intLit 2))
        .TOKEN_AND (binN (intLit 3) .TOKEN_EQUAL (intLit 4)))] ∧
    (parseSource "return 1 && 2 || 3 && 4;").1 =
      AST.program [AST.return_stmt (binN (binN (intLit 1) .TOKEN_AND (intLit 2))
        .TOKEN_OR (binN (intLit 3) .TOKEN_AND (intLit 4)))] :=
  by
  repeat' apply And.intro
  all_goals rfl

/-- C5.  Assignment is right-associative with an identifier target:
`a = b = 1;` parses to `Assignment(a, Assignment(b, Literal(1)))` with no
error, and the non-identifier target in `1 = 2;` records the parse error
"Invalid assignment target" (at the current token's position). -/
theorem C5_assignment_right_assoc :
    (parseSource "a = b = 1;").1 =
      AST.program [AST.expression_stmt (some (AST.assignment
        (some (AST.identifier ['a']))
        (some (AST.assignment (some (AST.identifier ['b'])) (intLit 1)))))] ∧
    (parseSource "a = b = 1;").2.had_error = false ∧
    (parseSource "1 = 2;").2.had_error = true ∧
    (parseSource "1 = 2;").2.error_message =
      some { line := 1, column := 6, message := "Invalid assignment target" } :=
  by
  repeat' apply And.intro
  all_goals rfl

/-- C6.  The spec requires the C-like emitter to succeed on every AST the
parser can produce, boolean literals included.  The code slips: the parser
builds boolean literals with `token_type = TOKEN_BOOL_KW`
(src/parser.c:235), but `generate_c_literal` only handles
`TOKEN_TRUE`/`TOKEN_FALSE` and hits its `default:` case, so generating the
parse of `true;` with the C-like format records "Unknown literal type" and
returns false.  (The claim's second half — JavaScript, Python and Bytecode
return false with a structured message — does hold, also shown here.) -/
theorem C6_codegen_bool_literal_code_bug :
    (parseSource "true;").1 =
      AST.program [AST.expression_stmt (some (AST.literal .TOKEN_BOOL_KW .undef))] ∧
    (parseSource "true;").2.had_error = false ∧
    (codegen_generate (codegen_create .OUTPUT_C)
        (some (AST.program [AST.expression_stmt (some (AST.literal .TOKEN_BOOL_KW .undef))]))).1 =
      false ∧
    (codegen_generate (codegen_create .OUTPUT_C)
        (some (AST.program
          [AST.expression_stmt (some (AST.literal .TOKEN_BOOL_KW .undef))]))).2.error_message =
      "Unknown literal type" ∧
    (codegen_generate (codegen_create .OUTPUT_JAVASCRIPT)
        (some (AST.program [AST.expression_stmt (some (AST.literal .TOKEN_BOOL_KW .undef))]))).1 =
      false ∧
    (codegen_generate (codegen_create .OUTPUT_JAVASCRIPT)
        (some (AST.program
          [AST.expression_stmt (some (AST.literal .TOKEN_BOOL_KW .undef))]))).2.error_message =
      "JavaScript output not implemented yet" ∧
    (codegen_generate (codegen_create .OUTPUT_PYTHON)
        (some (AST.program
          [AST.expression_stmt (some (AST.literal .TOKEN_BOOL_KW .undef))]))).2.error_message =
      "Python output not implemented yet" ∧
    (codegen_generate (codegen_create .OUTPUT_BYTECODE)
        (some (AST.program
          [AST.expression_stmt (some (AST.literal .TOKEN_BOOL_KW .undef))]))).2.error_message =
      "Bytecode output not implemented yet" :=
  by
  repeat' apply And.intro
  all_goals rfl

/-- C9.  The claim: exactly `'` + (one character | one backslash-escape) +
`'` lexes as CHAR, and an unterminated literal yields ERROR "Unterminated
character literal".  The code slips by one: the opening quote is consumed
as the dispatch character and then the `advance` commented "consume opening
quote" consumes the first content character.  Consequences shown here: the
well-formed escape literal `'\\'` (backslash-escape, closed) lexes as the
ERROR "Unterminated character literal"; the two-character `'ab'` lexes as
CHAR; the simple `'a'` and escape `'\n'` still lex as CHAR; a literal
reaching end of input does yield the claimed ERROR. -/
theorem C9_char_literal_code_bug :
    (lexer_next_token (lexer_create "'\\\\'" "f")).1.type = .TOKEN_ERROR ∧
    (lexer_next_token (lexer_create "'\\\\'" "f")).2.error_message =
      "Unterminated character literal" ∧
    (lexer_next_token (lexer_create "'ab'" "f")).1.type = .TOKEN_CHAR ∧
    (lexer_next_token (lexer_create "'a'" "f")).1.type = .TOKEN_CHAR ∧
    (lexer_next_token (lexer_create "'\\n'" "f")).1.type = .TOKEN_CHAR ∧
    (lexer_next_token (lexer_create "'a" "f")).1.type = .TOKEN_ERROR ∧
    (lexer_next_token (lexer_create "'a" "f")).2.error_message =
      "Unterminated character literal" :=
  by
  repeat' apply And.intro
  all_goals rfl

theorem lexer_next_token_fst (l : LexState) :
    (lexer_next_token l).1 = (next_token_core l.scan).1 := by
  unfold lexer_next_token
  rcases h : next_token_core l.scan with ⟨t, sc, err⟩
  rfl

theorem lexer_next_token_scan (l : LexState) :
    (lexer_next_token l).2.scan = (next_token_core l.scan).2.1 := by
  unfold lexer_next_token
  rcases h : next_token_core l.scan with ⟨t, sc, err⟩
  rfl

theorem lexer_peek_token_fst (l : LexState) :
    (lexer_peek_token l).1 = (lexer_next_token l).1 := by
  unfold lexer_peek_token
  rcases h : lexer_next_token l with ⟨t, l1⟩
  rfl

theorem lexer_peek_token_snd (l : LexState) :
    (lexer_peek_token l).2 = { l with error_message := (lexer_next_token l).2.error_message } := by
  unfold lexer_peek_token
  rcases h : lexer_next_token l with ⟨t, l1⟩
  rfl

/-- One lexer step depends only on the scan fields: states agreeing on them
produce the same token and again agree on them. -/
theorem lexer_next_token_scan_congr {a b : LexState} (h : a.scan = b.scan) :
    (lexer_next_token a).1 = (lexer_next_token b).1 ∧
    (lexer_next_token a).2.scan = (lexer_next_token b).2.scan := by
  constructor
  · rw [lexer_next_token_fst, lexer_next_token_fst, h]
  · rw [lexer_next_token_scan, lexer_next_token_scan, h]

theorem lexIter_scan_congr {a b : LexState} (h : a.scan = b.scan) :
    ∀ n, (lexIter a n).scan = (lexIter b n).scan := by
  intro n
  induction n with
  | zero => exact h
  | succ n ih =>
    show (lexer_next_token (lexIter a n)).2.scan = (lexer_next_token (lexIter b n)).2.scan
    exact (lexer_next_token_scan_congr ih).2

theorem nthLexToken_scan_congr {a b : LexState} (h : a.scan = b.scan) (n : Nat) :
    nthLexToken a n = nthLexToken b n :=
  (lexer_next_token_scan_congr (lexIter_scan_congr h n)).1

/-- C3.  `peek_token` followed by `next_token` is transparent: the peeked
token equals (in kind, position, length and value — the whole `Token`) the
token `next_token` alone returns, and the entire subsequent token sequence
out of the post-peek state coincides with the sequence out of the unpeeked
state, for every source and every lexer state. -/
theorem C3_peek_transparent (l : LexState) :
    (lexer_peek_token l).1 = (lexer_next_token l).1 ∧
    ∀ n, nthLexToken (lexer_peek_token l).2 n = nthLexToken l n := by
  refine ⟨lexer_peek_token_fst l, fun n => ?_⟩
  refine nthLexToken_scan_congr ?_ n
  rw [lexer_peek_token_snd]

/-- C10.  `lexer_peek_token` restores the cursor, start pointer, position
(the `scan` fields), the token counter and the `has_error` flag, but not
`error_message`, which keeps the value the peeked call produced.
Concretely, peeking the lexically invalid `@` leaves `lexer_has_error`
false (the pre-peek value) while `lexer_get_error` already reports
"Unexpected character". -/
theorem C10_peek_frame (l : LexState) :
    ((lexer_peek_token l).2.scan = l.scan ∧
     (lexer_peek_token l).2.tokens_processed = l.tokens_processed ∧
     (lexer_peek_token l).2.has_error = l.has_error ∧
     (lexer_peek_token l).2.error_message = (lexer_next_token l).2.error_message) ∧
    (lexer_peek_token (lexer_create "@" "f")).1.type = .TOKEN_ERROR ∧
    lexer_has_error (lexer_peek_token (lexer_create "@" "f")).2 = false ∧
    lexer_get_error (lexer_peek_token (lexer_create "@" "f")).2 = "Unexpected character" := by
  refine ⟨⟨?_, ?_, ?_, ?_⟩, ?_, ?_, ?_⟩
  · rw [lexer_peek_token_snd]
  · rw [lexer_peek_token_snd]
  · rw [lexer_peek_token_snd]
  · rw [lexer_peek_token_snd]
  · rfl
  · rfl
  · rfl

theorem ScanStep.rfl (s : ScanState) : ScanStep s s :=
  ⟨by rfl, by rfl, Nat.le_refl _, Int.le_refl _, fun h => h, by rfl,
   fun _ => ⟨by rfl, by omega⟩⟩

theorem ScanStep.trans {s t u : ScanState} (h1 : ScanStep s t) (h2 : ScanStep t u) :
    ScanStep s u := by
  refine ⟨h2.src_eq.trans h1.src_eq, h2.start_eq.trans h1.start_eq,
          Nat.le_trans h1.mono h2.mono, Int.le_trans h1.line_mono h2.line_mono,
          fun h => h2.col_pos (h1.col_pos h), h2.fname.trans h1.fname, ?_⟩
  intro hnl
  have hA := h1.track (fun i hi1 hi2 => hnl i hi1 (Nat.lt_of_lt_of_le hi2 h2.mono))
  have hB := h2.track (fun i hi1 hi2 => by
    rw [h1.src_eq]
    exact hnl i (Nat.le_trans h1.mono hi1) hi2)
  have hm1 := h1.mono
  have hm2 := h2.mono
  refine ⟨hB.1.trans hA.1, ?_⟩
  rw [hB.2, hA.2]
  omega

theorem step_plain_col (s : ScanState) :
    ScanStep s { s with current := s.current + 1,
                        pos := { s.pos with column := s.pos.column + 1 } } := by
  refine ⟨rfl, rfl, Nat.le_succ _, ?_, ?_, rfl, ?_⟩
  · dsimp only
    omega
  · intro h
    dsimp only
    omega
  · intro _
    refine ⟨rfl, ?_⟩
    dsimp only
    omega

theorem step_newline (s : ScanState) (h : s.src.getD s.current nulChar = '\n') :
    ScanStep s { s with current := s.current + 1,
                        pos := { s.pos with line := s.pos.line + 1, column := 1 } } := by
  refine ⟨rfl, rfl, Nat.le_succ _, ?_, ?_, rfl, ?_⟩
  · dsimp only
    omega
  · intro _
    dsimp only
    omega
  · intro hnl
    exact absurd h (hnl s.current (Nat.le_refl _) (Nat.lt_succ_self _))

theorem advance_scanStep (s : ScanState) : ScanStep s (advance s).2 := by
  unfold advance
  split
  · exact ScanStep.rfl s
  · dsimp only
    split
    · rename_i hnl
      simp only [peekc, beq_iff_eq] at hnl
      exact step_newline s hnl
    · exact step_plain_col s

theorem matchChar_scanStep (s : ScanState) (e : Char) : ScanStep s (matchChar s e).2 := by
  unfold matchChar
  split
  · exact ScanStep.rfl s
  · exact step_plain_col s

theorem skipWhileGas_scanStep (p : Char → Bool) (gas : Nat) (s : ScanState) :
    ScanStep s (skipWhileGas p gas s) := by
  induction gas generalizing s with
  | zero => exact ScanStep.rfl s
  | succ gas ih =>
    unfold skipWhileGas
    split
    · exact ScanStep.rfl s
    split
    · exact ScanStep.trans (advance_scanStep s) (ih (advance s).2)
    · exact ScanStep.rfl s

theorem skipWhile_scanStep (p : Char → Bool) (s : ScanState) : ScanStep s (skipWhile p s) :=
  skipWhileGas_scanStep p _ s

theorem skipBlockCommentGas_scanStep (gas : Nat) (s : ScanState) :
    ScanStep s (skipBlockCommentGas gas s) := by
  induction gas generalizing s with
  | zero => exact ScanStep.rfl s
  | succ gas ih =>
    unfold skipBlockCommentGas
    split
    · exact ScanStep.rfl s
    split
    · exact ScanStep.trans (advance_scanStep s)
        (ScanStep.trans (advance_scanStep (advance s).2) (ScanStep.rfl _))
    · exact ScanStep.trans (advance_scanStep s) (ih (advance s).2)

theorem skipBlockComment_scanStep (s : ScanState) : ScanStep s (skipBlockComment s) :=
  skipBlockCommentGas_scanStep _ s

theorem skip_whitespaceGas_scanStep (gas : Nat) (s : ScanState) :
    ScanStep s (skip_whitespaceGas gas s) := by
  induction gas generalizing s with
  | zero => exact ScanStep.rfl s
  | succ gas ih =>
    unfold skip_whitespaceGas
    split
    · exact ScanStep.rfl s
    dsimp only
    split
    · exact ScanStep.trans (advance_scanStep s) (ih (advance s).2)
    split
    · exact ScanStep.trans (advance_scanStep s)
        (ScanStep.trans (skipWhile_scanStep _ (advance s).2) (ih _))
    split
    · exact ScanStep.trans (advance_scanStep s)
        (ScanStep.trans (advance_scanStep (advance s).2)
          (ScanStep.trans (skipBlockComment_scanStep _) (ih _)))
    · exact ScanStep.rfl s

theorem skip_whitespace_scanStep (s : ScanState) : ScanStep s (skip_whitespace s) :=
  skip_whitespaceGas_scanStep _ s

theorem skipHexAtMost_scanStep (n : Nat) (s : ScanState) : ScanStep s (skipHexAtMost n s) := by
  induction n generalizing s with
  | zero => exact ScanStep.rfl s
  | succ n ih =>
    unfold skipHexAtMost
    split
    · exact ScanStep.trans (advance_scanStep s) (ih (advance s).2)
    · exact ScanStep.rfl s

theorem stringLoopGas_scanStep (gas : Nat) (s : ScanState) :
    ScanStep s (stringLoopGas gas s) := by
  induction gas generalizing s with
  | zero => exact ScanStep.rfl s
  | succ gas ih =>
    unfold stringLoopGas
    split
    · exact ScanStep.rfl s
    split
    · exact ScanStep.rfl s
    split
    · dsimp only
      split
      · exact ScanStep.trans (advance_scanStep s) (ih _)
      · refine ScanStep.trans (advance_scanStep s) (ScanStep.trans ?_ (ih _))
        split
        · exact advance_scanStep _
        split
        · exact ScanStep.trans (advance_scanStep _) (skipHexAtMost_scanStep 2 _)
        split
        · exact ScanStep.trans (advance_scanStep _) (skipHexAtMost_scanStep 4 _)
        · exact advance_scanStep _
    · refine ScanStep.trans ?_ (ih _)
      dsimp only
      split
      · rename_i hnl
        simp only [peekc, beq_iff_eq] at hnl
        exact step_newline s hnl
      · exact step_plain_col s

theorem stringLoop_scanStep (s : ScanState) : ScanStep s (stringLoop s) :=
  stringLoopGas_scanStep _ s

theorem numberScan_scanStep (s : ScanState) : ScanStep s (numberScan s).2.2 := by
  unfold numberScan
  split
  · try dsimp only
    split
    · exact ScanStep.trans (advance_scanStep s)
        (ScanStep.trans (advance_scanStep _) (skipWhile_scanStep _ _))
    split
    · exact ScanStep.trans (advance_scanStep s)
        (ScanStep.trans (advance_scanStep _) (skipWhile_scanStep _ _))
    split
    · exact ScanStep.trans (advance_scanStep s)
        (ScanStep.trans (advance_scanStep _) (skipWhile_scanStep _ _))
    · try dsimp only
      split
      · exact ScanStep.trans (skipWhile_scanStep _ s)
          (ScanStep.trans (advance_scanStep _) (skipWhile_scanStep _ _))
      · exact skipWhile_scanStep _ s
  · try dsimp only
    split
    · try dsimp only
      split
      · try dsimp only
        refine ScanStep.trans (skipWhile_scanStep isdigitB s)
          (ScanStep.trans (advance_scanStep (skipWhile isdigitB s))
            (ScanStep.trans (skipWhile_scanStep isdigitB _)
              (ScanStep.trans (advance_scanStep _) ?_)))
        split
        · exact ScanStep.trans (advance_scanStep _) (skipWhile_scanStep isdigitB _)
        · exact skipWhile_scanStep isdigitB _
      · exact ScanStep.trans (skipWhile_scanStep isdigitB s)
          (ScanStep.trans (advance_scanStep (skipWhile isdigitB s)) (skipWhile_scanStep isdigitB _))
    · try dsimp only
      split
      · try dsimp only
        refine ScanStep.trans (skipWhile_scanStep isdigitB s)
          (ScanStep.trans (advance_scanStep (skipWhile isdigitB s)) ?_)
        split
        · exact ScanStep.trans (advance_scanStep _) (skipWhile_scanStep isdigitB _)
        · exact skipWhile_scanStep isdigitB _
      · exact skipWhile_scanStep isdigitB s

theorem number_spec (s : ScanState) :
    ScanStep s (number s).2 ∧
    (number s).1 = { make_token (number s).2 (number s).1.type with value := (number s).1.value } ∧
    ((number s).1.type = .TOKEN_INTEGER ∨ (number s).1.type = .TOKEN_FLOAT) := by
  have hstep := numberScan_scanStep s
  unfold number
  rcases h : numberScan s with ⟨isf, base, s1⟩
  rw [h] at hstep
  cases isf with
  | true => exact ⟨hstep, rfl, Or.inr rfl⟩
  | false => exact ⟨hstep, rfl, Or.inl rfl⟩

theorem keywords_type_ok :
    ∀ kv ∈ keywords, kv.2 ≠ TokenType.TOKEN_EOF ∧ kv.2 ≠ TokenType.TOKEN_ERROR := by
  decide

theorem check_keyword_ok (lex : List Char) :
    check_keyword lex ≠ .TOKEN_EOF ∧ check_keyword lex ≠ .TOKEN_ERROR := by
  unfold check_keyword
  cases h : keywords.find? (fun kv => kv.1.toList == lex) with
  | none => simp
  | some kv =>
    have hm := List.mem_of_find?_eq_some h
    simpa using keywords_type_ok kv hm

theorem identifier_spec (s : ScanState) :
    ScanStep s (identifier s).2 ∧
    (identifier s).1 = make_token (identifier s).2 (check_keyword (lexeme (identifier s).2)) ∧
    check_keyword (lexeme (identifier s).2) ≠ .TOKEN_EOF ∧
    check_keyword (lexeme (identifier s).2) ≠ .TOKEN_ERROR := by
  unfold identifier
  dsimp only
  exact ⟨skipWhile_scanStep _ s, rfl, (check_keyword_ok _).1, (check_keyword_ok _).2⟩

theorem stringTok_spec (s : ScanState) :
    ScanStep s (stringTok s).2.1 ∧
    ((stringTok s).1.type = .TOKEN_ERROR ∨
     (stringTok s).1 = make_token (stringTok s).2.1 .TOKEN_STRING) := by
  unfold stringTok
  dsimp only
  split
  · exact ⟨stringLoop_scanStep s, Or.inl rfl⟩
  · exact ⟨ScanStep.trans (stringLoop_scanStep s) (advance_scanStep _), Or.inr rfl⟩

theorem leaf_make {s1 s2 X : ScanState} (h12 : ScanStep s1 s2) (hc : s1.current < s2.current)
    (hX : ScanStep s2 X) (T : TokenType) (h1 : T ≠ .TOKEN_EOF) (h2 : T ≠ .TOKEN_ERROR) :
    NextTokenSpec s1 (make_token X T, X, (none : Option String)) := by
  unfold NextTokenSpec
  exact ⟨ScanStep.trans h12 hX, Or.inr ⟨Nat.lt_of_lt_of_le hc hX.mono, Or.inr ⟨rfl, h1, h2⟩⟩⟩

theorem leaf_err {s1 s2 X : ScanState} (h12 : ScanStep s1 s2) (hc : s1.current < s2.current)
    (hX : ScanStep s2 X) (msg : String) :
    NextTokenSpec s1 (error_token X msg) := by
  unfold NextTokenSpec error_token
  exact ⟨ScanStep.trans h12 hX, Or.inr ⟨Nat.lt_of_lt_of_le hc hX.mono, Or.inl rfl⟩⟩

theorem leaf_identifier {s1 s2 : ScanState} (h12 : ScanStep s1 s2)
    (hc : s1.current < s2.current) :
    NextTokenSpec s1 ((identifier s2).1, (identifier s2).2, (none : Option String)) := by
  obtain ⟨hstep, heq, h1, h2⟩ := identifier_spec s2
  unfold NextTokenSpec
  refine ⟨ScanStep.trans h12 hstep, Or.inr ⟨Nat.lt_of_lt_of_le hc hstep.mono, Or.inr ⟨?_, ?_, ?_⟩⟩⟩
  · dsimp only
    rw [heq]
    rfl
  · dsimp only
    rw [heq]
    exact h1
  · dsimp only
    rw [heq]
    exact h2

theorem leaf_number {s1 s2 : ScanState} (h12 : ScanStep s1 s2)
    (hc : s1.current < s2.current) :
    NextTokenSpec s1 ((number s2).1, (number s2).2, (none : Option String)) := by
  obtain ⟨hstep, heq, hty⟩ := number_spec s2
  unfold NextTokenSpec
  refine ⟨ScanStep.trans h12 hstep, Or.inr ⟨Nat.lt_of_lt_of_le hc hstep.mono,
    Or.inr ⟨heq, ?_, ?_⟩⟩⟩
  · rcases hty with h | h <;> rw [h] <;> decide
  · rcases hty with h | h <;> rw [h] <;> decide

theorem leaf_string {s1 s2 : ScanState} (h12 : ScanStep s1 s2)
    (hc : s1.current < s2.current) :
    NextTokenSpec s1 (stringTok s2) := by
  obtain ⟨hstep, harm⟩ := stringTok_spec s2
  unfold NextTokenSpec
  refine ⟨ScanStep.trans h12 hstep, Or.inr ⟨Nat.lt_of_lt_of_le hc hstep.mono, ?_⟩⟩
  rcases harm with h | heq
  · exact Or.inl h
  · refine Or.inr ⟨?_, ?_, ?_⟩
    · rw [heq]
      rfl
    · rw [heq]
      show TokenType.TOKEN_STRING ≠ TokenType.TOKEN_EOF
      decide
    · rw [heq]
      show TokenType.TOKEN_STRING ≠ TokenType.TOKEN_ERROR
      decide

/-- The one-call contract of the scanner core from the state where the
lexeme start has just been saved: see `NextTokenSpec`.  The proof walks
every branch of the dispatch switch. -/
theorem next_token_inner_spec (s : ScanState) :
    NextTokenSpec s (next_token_inner s) := by
  unfold next_token_inner
  split
  · rename_i hend
    unfold NextTokenSpec
    exact ⟨ScanStep.rfl _, Or.inl ⟨rfl, rfl, hend⟩⟩
  · rename_i hend
    simp only [Bool.not_eq_true] at hend
    have hadv := advance_current_of_not_at_end hend
    have hc := Nat.lt_of_lt_of_le (Nat.lt_succ_self _) (Nat.le_of_eq hadv.symm)
    unfold next_token_dispatch
    by_cases h1 : (isalphaB (advance s).1 || (advance s).1 == '_') = true
    · rw [if_pos h1]
      exact leaf_identifier (advance_scanStep _) hc
    rw [if_neg h1]
    by_cases h2 : isdigitB (advance s).1 = true
    · rw [if_pos h2]
      exact leaf_number (advance_scanStep _) hc
    rw [if_neg h2]
    by_cases h3 : ((advance s).1 == '(') = true
    · rw [if_pos h3]
      exact leaf_make (advance_scanStep _) hc (ScanStep.rfl _) _ (by decide) (by decide)
    rw [if_neg h3]
    by_cases h4 : ((advance s).1 == ')') = true
    · rw [if_pos h4]
      exact leaf_make (advance_scanStep _) hc (ScanStep.rfl _) _ (by decide) (by decide)
    rw [if_neg h4]
    by_cases h5 : ((advance s).1 == '{') = true
    · rw [if_pos h5]
      exact leaf_make (advance_scanStep _) hc (ScanStep.rfl _) _ (by decide) (by decide)
    rw [if_neg h5]
    by_cases h6 : ((advance s).1 == '}') = true
    · rw [if_pos h6]
      exact leaf_make (advance_scanStep _) hc (ScanStep.rfl _) _ (by decide) (by decide)
    rw [if_neg h6]
    by_cases h7 : ((advance s).1 == '[') = true
    · rw [if_pos h7]
      exact leaf_make (advance_scanStep _) hc (ScanStep.rfl _) _ (by decide) (by decide)
    rw [if_neg h7]
    by_cases h8 : ((advance s).1 == ']') = true
    · rw [if_pos h8]
      exact leaf_make (advance_scanStep _) hc (ScanStep.rfl _) _ (by decide) (by decide)
    rw [if_neg h8]
    by_cases h9 : ((advance s).1 == ';') = true
    · rw [if_pos h9]
      exact leaf_make (advance_scanStep _) hc (ScanStep.rfl _) _ (by decide) (by decide)
    rw [if_neg h9]
    by_cases h10 : ((advance s).1 == ',') = true
    · rw [if_pos h10]
      exact leaf_make (advance_scanStep _) hc (ScanStep.rfl _) _ (by decide) (by decide)
    rw [if_neg h10]
    by_cases h11 : ((advance s).1 == '.') = true
    · rw [if_pos h11]
      try dsimp only
      split
      · split
        · exact leaf_make (advance_scanStep _) hc
            (ScanStep.trans (matchChar_scanStep _ _) (matchChar_scanStep _ _)) _
            (by decide) (by decide)
        · exact leaf_err (advance_scanStep _) hc
            (ScanStep.trans (matchChar_scanStep _ _) (matchChar_scanStep _ _)) _
      · exact leaf_make (advance_scanStep _) hc (matchChar_scanStep _ _) _
          (by decide) (by decide)
    rw [if_neg h11]
    by_cases h12 : ((advance s).1 == ':') = true
    · rw [if_pos h12]
      try dsimp only
      split
      · exact leaf_make (advance_scanStep _) hc (matchChar_scanStep _ _) _ (by decide) (by decide)
      · exact leaf_make (advance_scanStep _) hc (matchChar_scanStep _ _) _ (by decide) (by decide)
    rw [if_neg h12]
    by_cases h13 : ((advance s).1 == '?') = true
    · rw [if_pos h13]
      exact leaf_make (advance_scanStep _) hc (ScanStep.rfl _) _ (by decide) (by decide)
    rw [if_neg h13]
    by_cases h14 : ((advance s).1 == '~') = true
    · rw [if_pos h14]
      exact leaf_make (advance_scanStep _) hc (ScanStep.rfl _) _ (by decide) (by decide)
    rw [if_neg h14]
    by_cases h15 : ((advance s).1 == '^') = true
    · rw [if_pos h15]
      try dsimp only
      split
      · exact leaf_make (advance_scanStep _) hc (matchChar_scanStep _ _) _ (by decide) (by decide)
      · exact leaf_make (advance_scanStep _) hc (matchChar_scanStep _ _) _ (by decide) (by decide)
    rw [if_neg h15]
    by_cases h16 : ((advance s).1 == '+') = true
    · rw [if_pos h16]
      try dsimp only
      split
      · exact leaf_make (advance_scanStep _) hc (matchChar_scanStep _ _) _ (by decide) (by decide)
      split
      · exact leaf_make (advance_scanStep _) hc
          (ScanStep.trans (matchChar_scanStep _ _) (matchChar_scanStep _ _)) _
          (by decide) (by decide)
      · exact leaf_make (advance_scanStep _) hc
          (ScanStep.trans (matchChar_scanStep _ _) (matchChar_scanStep _ _)) _
          (by decide) (by decide)
    rw [if_neg h16]
    by_cases h17 : ((advance s).1 == '-') = true
    · rw [if_pos h17]
      try dsimp only
      split
      · exact leaf_make (advance_scanStep _) hc (matchChar_scanStep _ _) _ (by decide) (by decide)
      split
      · exact leaf_make (advance_scanStep _) hc
          (ScanStep.trans (matchChar_scanStep _ _) (matchChar_scanStep _ _)) _
          (by decide) (by decide)
      split
      · exact leaf_make (advance_scanStep _) hc
          (ScanStep.trans (matchChar_scanStep _ _)
            (ScanStep.trans (matchChar_scanStep _ _) (matchChar_scanStep _ _))) _
          (by decide) (by decide)
      · exact leaf_make (advance_scanStep _) hc
          (ScanStep.trans (matchChar_scanStep _ _)
            (ScanStep.trans (matchChar_scanStep _ _) (matchChar_scanStep _ _))) _
          (by decide) (by decide)
    rw [if_neg h17]
    by_cases h18 : ((advance s).1 == '*') = true
    · rw [if_pos h18]
      try dsimp only
      split
      · exact leaf_make (advance_scanStep _) hc (matchChar_scanStep _ _) _ (by decide) (by decide)
      split
      · split
        · exact leaf_make (advance_scanStep _) hc
            (ScanStep.trans (matchChar_scanStep _ _)
              (ScanStep.trans (matchChar_scanStep _ _) (matchChar_scanStep _ _))) _
            (by decide) (by decide)
        · exact leaf_make (advance_scanStep _) hc
            (ScanStep.trans (matchChar_scanStep _ _)
              (ScanStep.trans (matchChar_scanStep _ _) (matchChar_scanStep _ _))) _
            (by decide) (by decide)
      · exact leaf_make (advance_scanStep _) hc
          (ScanStep.trans (matchChar_scanStep _ _) (matchChar_scanStep _ _)) _
          (by decide) (by decide)
    rw [if_neg h18]
    by_cases h19 : ((advance s).1 == '/') = true
    · rw [if_pos h19]
      try dsimp only
      split
      · exact leaf_make (advance_scanStep _) hc (matchChar_scanStep _ _) _ (by decide) (by decide)
      · exact leaf_make (advance_scanStep _) hc (matchChar_scanStep _ _) _ (by decide) (by decide)
    rw [if_neg h19]
    by_cases h20 : ((advance s).1 == '%') = true
    · rw [if_pos h20]
      try dsimp only
      split
      · exact leaf_make (advance_scanStep _) hc (matchChar_scanStep _ _) _ (by decide) (by decide)
      · exact leaf_make (advance_scanStep _) hc (matchChar_scanStep _ _) _ (by decide) (by decide)
    rw [if_neg h20]
    by_cases h21 : ((advance s).1 == '\n') = true
    · rw [if_pos h21]
      exact leaf_make (advance_scanStep _) hc (ScanStep.rfl _) _ (by decide) (by decide)
    rw [if_neg h21]
    by_cases h22 : ((advance s).1 == '"') = true
    · rw [if_pos h22]
      exact leaf_string (advance_scanStep _) hc
    rw [if_neg h22]
    by_cases h23 : ((advance s).1 == '\'') = true
    · rw [if_pos h23]
      try dsimp only
      split
      · split
        · exact leaf_err (advance_scanStep _) hc
            (ScanStep.trans (advance_scanStep _)
              (ScanStep.trans (advance_scanStep _)
                (ScanStep.trans (advance_scanStep _) (matchChar_scanStep _ _)))) _
        · exact leaf_make (advance_scanStep _) hc
            (ScanStep.trans (advance_scanStep _)
              (ScanStep.trans (advance_scanStep _)
                (ScanStep.trans (advance_scanStep _) (matchChar_scanStep _ _)))) _
            (by decide) (by decide)
      split
      · split
        · exact leaf_err (advance_scanStep _) hc
            (ScanStep.trans (advance_scanStep _)
              (ScanStep.trans (advance_scanStep _) (matchChar_scanStep _ _))) _
        · exact leaf_make (advance_scanStep _) hc
            (ScanStep.trans (advance_scanStep _)
              (ScanStep.trans (advance_scanStep _) (matchChar_scanStep _ _))) _
            (by decide) (by decide)
      · split
        · exact leaf_err (advance_scanStep _) hc
            (ScanStep.trans (advance_scanStep _) (matchChar_scanStep _ _)) _
        · exact leaf_make (advance_scanStep _) hc
            (ScanStep.trans (advance_scanStep _) (matchChar_scanStep _ _)) _
            (by decide) (by decide)
    rw [if_neg h23]
    by_cases h24 : ((advance s).1 == '!') = true
    · rw [if_pos h24]
      try dsimp only
      split
      · exact leaf_make (advance_scanStep _) hc (matchChar_scanStep _ _) _ (by decide) (by decide)
      · exact leaf_make (advance_scanStep _) hc (matchChar_scanStep _ _) _ (by decide) (by decide)
    rw [if_neg h24]
    by_cases h25 : ((advance s).1 == '=') = true
    · rw [if_pos h25]
      try dsimp only
      split
      · split
        · exact leaf_make (advance_scanStep _) hc
            (ScanStep.trans (matchChar_scanStep _ _) (matchChar_scanStep _ _)) _
            (by decide) (by decide)
        · exact leaf_make (advance_scanStep _) hc
            (ScanStep.trans (matchChar_scanStep _ _) (matchChar_scanStep _ _)) _
            (by decide) (by decide)
      · exact leaf_make (advance_scanStep _) hc (matchChar_scanStep _ _) _ (by decide) (by decide)
    rw [if_neg h25]
    by_cases h26 : ((advance s).1 == '<') = true
    · rw [if_pos h26]
      try dsimp only
      split
      · split
        · exact leaf_make (advance_scanStep _) hc
            (ScanStep.trans (matchChar_scanStep _ _) (matchChar_scanStep _ _)) _
            (by decide) (by decide)
        · exact leaf_make (advance_scanStep _) hc
            (ScanStep.trans (matchChar_scanStep _ _) (matchChar_scanStep _ _)) _
            (by decide) (by decide)
      split
      · exact leaf_make (advance_scanStep _) hc
          (ScanStep.trans (matchChar_scanStep _ _) (matchChar_scanStep _ _)) _
          (by decide) (by decide)
      · exact leaf_make (advance_scanStep _) hc
          (ScanStep.trans (matchChar_scanStep _ _) (matchChar_scanStep _ _)) _
          (by decide) (by decide)
    rw [if_neg h26]
    by_cases h27 : ((advance s).1 == '>') = true
    · rw [if_pos h27]
      try dsimp only
      split
      · split
        · exact leaf_make (advance_scanStep _) hc
            (ScanStep.trans (matchChar_scanStep _ _) (matchChar_scanStep _ _)) _
            (by decide) (by decide)
        · exact leaf_make (advance_scanStep _) hc
            (ScanStep.trans (matchChar_scanStep _ _) (matchChar_scanStep _ _)) _
            (by decide) (by decide)
      split
      · exact leaf_make (advance_scanStep _) hc
          (ScanStep.trans (matchChar_scanStep _ _) (matchChar_scanStep _ _)) _
          (by decide) (by decide)
      · exact leaf_make (advance_scanStep _) hc
          (ScanStep.trans (matchChar_scanStep _ _) (matchChar_scanStep _ _)) _
          (by decide) (by decide)
    rw [if_neg h27]
    by_cases h28 : ((advance s).1 == '&') = true
    · rw [if_pos h28]
      try dsimp only
      split
      · exact leaf_make (advance_scanStep _) hc (matchChar_scanStep _ _) _ (by decide) (by decide)
      split
      · exact leaf_make (advance_scanStep _) hc
          (ScanStep.trans (matchChar_scanStep _ _) (matchChar_scanStep _ _)) _
          (by decide) (by decide)
      · exact leaf_make (advance_scanStep _) hc
          (ScanStep.trans (matchChar_scanStep _ _) (matchChar_scanStep _ _)) _
          (by decide) (by decide)
    rw [if_neg h28]
    by_cases h29 : ((advance s).1 == '|') = true
    · rw [if_pos h29]
      try dsimp only
      split
      · exact leaf_make (advance_scanStep _) hc (matchChar_scanStep _ _) _ (by decide) (by decide)
      split
      · exact leaf_make (advance_scanStep _) hc
          (ScanStep.trans (matchChar_scanStep _ _) (matchChar_scanStep _ _)) _
          (by decide) (by decide)
      · exact leaf_make (advance_scanStep _) hc
          (ScanStep.trans (matchChar_scanStep _ _) (matchChar_scanStep _ _)) _
          (by decide) (by decide)
    rw [if_neg h29]
    by_cases h30 : ((advance s).1 == '#') = true
    · rw [if_pos h30]
      exact leaf_make (advance_scanStep _) hc (ScanStep.rfl _) _ (by decide) (by decide)
    rw [if_neg h30]
    exact leaf_err (advance_scanStep _) hc (ScanStep.rfl _) _

/-- The same contract phrased for `next_token_core`: the reference state is
the post-whitespace lexeme-start state `postWs s0`. -/
theorem next_token_core_spec (s0 : ScanState) :
    NextTokenSpec (postWs s0) (next_token_core s0) :=
  next_token_inner_spec (postWs s0)

theorem at_end_of_le {s : ScanState} (h : s.src.length ≤ s.current) :
    is_at_end s = true := by
  have hd : peekc s = nulChar := by
    unfold peekc
    exact List.getD_eq_default s.src nulChar h
  unfold is_at_end
  rw [hd]
  decide

theorem skip_whitespaceGas_at_end {s : ScanState} (h : is_at_end s = true) :
    ∀ gas, skip_whitespaceGas gas s = s := by
  intro gas
  cases gas with
  | zero => rfl
  | succ g =>
    unfold skip_whitespaceGas
    rw [if_pos h]

theorem skip_whitespace_at_end {s : ScanState} (h : is_at_end s = true) :
    skip_whitespace s = s :=
  skip_whitespaceGas_at_end h _

/-- At the end of input the scan core is a fixpoint apart from saving the
lexeme start: it emits `EOF` without moving. -/
theorem next_token_core_at_end {s : ScanState} (h : is_at_end s = true) :
    next_token_core s = (make_token { s with start := s.current } .TOKEN_EOF,
      { s with start := s.current }, none) := by
  unfold next_token_core
  dsimp only
  rw [skip_whitespace_at_end h]
  unfold next_token_inner
  rw [if_pos (show is_at_end { s with start := s.current } = true from h)]

theorem lexer_next_token_at_end {l : LexState} (h : is_at_end l.scan = true) :
    (lexer_next_token l).1.type = .TOKEN_EOF := by
  rw [lexer_next_token_fst, next_token_core_at_end h]
  rfl

/-- An `EOF` answer pins the state: it is the post-whitespace lexeme-start
state, and that state is at the end of input. -/
theorem lexer_next_token_eof_state {l : LexState}
    (h : (lexer_next_token l).1.type = .TOKEN_EOF) :
    (lexer_next_token l).2.scan = postWs l.scan ∧
    is_at_end (postWs l.scan) = true := by
  have hs := next_token_core_spec l.scan
  unfold NextTokenSpec at hs
  rw [lexer_next_token_fst] at h
  rcases hs with ⟨hstep, harm⟩
  rcases harm with ⟨hty, hst, hend⟩ | ⟨hlt, harm2⟩
  · refine ⟨?_, hend⟩
    rw [lexer_next_token_scan, hst]
  · rcases harm2 with herr | ⟨_, hne, _⟩
    · rw [h] at herr
      exact absurd herr (by decide)
    · exact absurd h hne

/-- Every non-`EOF` call consumes at least one input byte and leaves the
buffer untouched. -/
theorem lexer_next_token_progress {l : LexState}
    (h : (lexer_next_token l).1.type ≠ .TOKEN_EOF) :
    l.scan.current < (lexer_next_token l).2.scan.current ∧
    (lexer_next_token l).2.scan.src = l.scan.src := by
  have hs := next_token_core_spec l.scan
  unfold NextTokenSpec at hs
  rw [lexer_next_token_fst] at h
  rcases hs with ⟨hstep, harm⟩
  rcases harm with ⟨htok, _, _⟩ | ⟨hlt, _⟩
  · refine absurd ?_ h
    rw [htok]
    rfl
  · constructor
    · rw [lexer_next_token_scan]
      exact Nat.lt_of_le_of_lt (skip_whitespace_scanStep l.scan).mono hlt
    · rw [lexer_next_token_scan, hstep.src_eq]
      exact (skip_whitespace_scanStep l.scan).src_eq

theorem eof_sticky_once {l : LexState}
    (h : (lexer_next_token l).1.type = .TOKEN_EOF) :
    (lexer_next_token (lexer_next_token l).2).1.type = .TOKEN_EOF := by
  obtain ⟨hst, hend⟩ := lexer_next_token_eof_state h
  have hend2 : is_at_end (lexer_next_token l).2.scan = true := by
    rw [hst]
    exact hend
  exact lexer_next_token_at_end hend2

theorem lexIter_succ_front (l : LexState) (n : Nat) :
    lexIter l (n + 1) = lexIter (lexer_next_token l).2 n := by
  induction n with
  | zero => rfl
  | succ n ih =>
    show (lexer_next_token (lexIter l (n + 1))).2
      = (lexer_next_token (lexIter (lexer_next_token l).2 n)).2
    rw [ih]

theorem nthLexToken_succ_front (l : LexState) (n : Nat) :
    nthLexToken l (n + 1) = nthLexToken (lexer_next_token l).2 n := by
  unfold nthLexToken
  rw [lexIter_succ_front]

set_option maxHeartbeats 1600000 in
/-- Strong induction on remaining input: the token stream reaches `EOF`
within `src.length - current` calls. -/
theorem eof_reached (m : Nat) : ∀ l : LexState,
    l.scan.src.length - l.scan.current ≤ m →
    ∃ n, n ≤ l.scan.src.length - l.scan.current ∧
      (nthLexToken l n).type = .TOKEN_EOF := by
  induction m with
  | zero =>
    intro l hm
    refine ⟨0, Nat.zero_le _, ?_⟩
    have hle : l.scan.src.length ≤ l.scan.current := by omega
    exact lexer_next_token_at_end (at_end_of_le hle)
  | succ m ih =>
    intro l hm
    by_cases h : (lexer_next_token l).1.type = .TOKEN_EOF
    · exact ⟨0, Nat.zero_le _, h⟩
    · obtain ⟨hlt, hsrc⟩ := lexer_next_token_progress h
      have hcl : l.scan.current < l.scan.src.length := by
        by_contra hcl
        exact h (lexer_next_token_at_end (at_end_of_le (by omega)))
      have hm1 : (lexer_next_token l).2.scan.src.length
          - (lexer_next_token l).2.scan.current ≤ m := by
        rw [hsrc]
        omega
      obtain ⟨n, hn, heof⟩ := ih (lexer_next_token l).2 hm1
      rw [hsrc] at hn
      have hbound : n + 1 ≤ l.scan.src.length - l.scan.current := by
        clear heof hm1 h ih hsrc hm
        revert hn hlt
        generalize (lexer_next_token l).2.scan.current = c2
        intro hn hlt
        omega
      refine ⟨n + 1, hbound, ?_⟩
      rw [nthLexToken_succ_front]
      exact heof

theorem nthLexToken_eq (l : LexState) (n : Nat) :
    nthLexToken l n = (lexer_next_token (lexIter l n)).1 := rfl

theorem lexIter_succ (l : LexState) (n : Nat) :
    lexIter l (n + 1) = (lexer_next_token (lexIter l n)).2 := rfl

/-- C7.  Repeated `lexer_next_token` calls reach `EOF` after finitely many
calls: every non-`EOF` call consumes at least one input byte, `EOF` arrives
within `src.length - current` calls, and once `EOF` has been returned every
subsequent call returns `EOF` again. -/
theorem C7_eof_termination (l : LexState) :
    ((lexer_next_token l).1.type ≠ .TOKEN_EOF →
        l.scan.current < (lexer_next_token l).2.scan.current) ∧
    (∃ n, n ≤ l.scan.src.length - l.scan.current ∧
        (nthLexToken l n).type = .TOKEN_EOF) ∧
    (∀ n k, (nthLexToken l n).type = .TOKEN_EOF →
        (nthLexToken l (n + k)).type = .TOKEN_EOF) := by
  refine ⟨fun h => (lexer_next_token_progress h).1,
    eof_reached (l.scan.src.length - l.scan.current) l (Nat.le_refl _), ?_⟩
  intro n k h
  induction k with
  | zero => exact h
  | succ k ih =>
    have harith : n + (k + 1) = (n + k) + 1 := rfl
    rw [harith, nthLexToken_eq, lexIter_succ]
    rw [nthLexToken_eq] at ih
    exact eof_sticky_once ih

/-- Witness for C7 on the two-byte source `ab`: the second call returns
`EOF`, and stickiness makes the third call return `EOF` again. -/
theorem C7_eof_termination_witness :
    (nthLexToken (lexer_create "ab" "f") 2).type = .TOKEN_EOF :=
  (C7_eof_termination (lexer_create "ab" "f")).2.2 1 1 (by rfl)

theorem position_fields_eq {a b : Position} (h1 : a.line = b.line)
    (h2 : a.column = b.column) (h3 : a.filename = b.filename) : a = b := by
  cases a
  cases b
  cases h1
  cases h2
  cases h3
  rfl

/-- C8, counterexample.  The spec promises `line ≥ 1 ∧ column ≥ 1` for every
token position and that each token's position denotes the start of its
lexeme.  Both fail: the `NEWLINE` token for the source `\n` carries
line 2, column 0 (the newline bumped the line before `make_token` rolled the
column back below 1, and the lexeme starts at line 1 column 1); and the
`ERROR` token for `@` carries column 2, the end of the one-byte lexeme that
starts at column 1, because `error_token` does not roll the column back. -/
theorem C8_position_counterexample :
    (nthLexToken (lexer_create "\n" "f") 0).type = .TOKEN_NEWLINE ∧
    (nthLexToken (lexer_create "\n" "f") 0).pos.line = 2 ∧
    (nthLexToken (lexer_create "\n" "f") 0).pos.column = 0 ∧
    (nthLexToken (lexer_create "@" "f") 0).type = .TOKEN_ERROR ∧
    (nthLexToken (lexer_create "@" "f") 0).start = 0 ∧
    (nthLexToken (lexer_create "@" "f") 0).length = 1 ∧
    (nthLexToken (lexer_create "@" "f") 0).pos.column = 2 := by
  repeat' apply And.intro
  all_goals rfl

/-- C8, amended.  If the pre-call position is well formed (`line ≥ 1`,
`column ≥ 1`), the returned token is not an `ERROR` token, and no newline
lies in the consumed lexeme span, then the token's position is exactly the
position of the start of its lexeme (the position after whitespace
skipping), and it satisfies `line ≥ 1 ∧ column ≥ 1`. -/
theorem C8_token_position_amended (l : LexState)
    (hline : 1 ≤ l.scan.pos.line) (hcol : 1 ≤ l.scan.pos.column)
    (hty : (lexer_next_token l).1.type ≠ .TOKEN_ERROR)
    (hnl : ∀ i, (postWs l.scan).current ≤ i →
        i < (lexer_next_token l).2.scan.current →
        (postWs l.scan).src.getD i nulChar ≠ '\n') :
    (lexer_next_token l).1.pos = (postWs l.scan).pos ∧
    1 ≤ (lexer_next_token l).1.pos.line ∧
    1 ≤ (lexer_next_token l).1.pos.column := by
  have hws := skip_whitespace_scanStep l.scan
  have hline1 : (1 : Int) ≤ (postWs l.scan).pos.line := le_trans hline hws.line_mono
  have hcol1 : (1 : Int) ≤ (postWs l.scan).pos.column := hws.col_pos hcol
  have hs := next_token_core_spec l.scan
  unfold NextTokenSpec at hs
  rw [lexer_next_token_scan] at hnl
  rw [lexer_next_token_fst] at hty ⊢
  rcases hs with ⟨hstep, harm⟩
  have hzero : (postWs l.scan).current - (postWs l.scan).start = 0 := Nat.sub_self _
  have hpos : ∀ T : TokenType,
      (make_token (next_token_core l.scan).2.1 T).pos = (postWs l.scan).pos := by
    intro T
    rcases harm with ⟨_, hst, _⟩ | ⟨hlt, _⟩
    · unfold make_token
      dsimp only
      rw [hst, hzero]
      refine position_fields_eq rfl ?_ rfl
      dsimp only
      omega
    · obtain ⟨hl, hc⟩ := hstep.track hnl
      unfold make_token
      dsimp only
      refine position_fields_eq hl ?_ hstep.fname
      dsimp only
      rw [hstep.start_eq]
      have hss : (postWs l.scan).start = (postWs l.scan).current := rfl
      rw [hss]
      have hmono := hstep.mono
      have hcast : (((next_token_core l.scan).2.1.current - (postWs l.scan).current : Nat) : Int)
          = ((next_token_core l.scan).2.1.current : Int) - ((postWs l.scan).current : Int) := by
        omega
      rw [hcast, hc]
      ring
  rcases harm with ⟨htok, hst, hend⟩ | ⟨hlt, herr | ⟨htok, hne1, hne2⟩⟩
  · rw [htok]
    have hpe : (make_token (postWs l.scan) .TOKEN_EOF).pos = (postWs l.scan).pos := by
      have := hpos .TOKEN_EOF
      rw [hst] at this
      exact this
    rw [hpe]
    exact ⟨rfl, hline1, hcol1⟩
  · exact absurd herr hty
  · rw [htok]
    have hpe : ({ make_token (next_token_core l.scan).2.1 (next_token_core l.scan).1.type
        with value := (next_token_core l.scan).1.value } : Token).pos
        = (postWs l.scan).pos := hpos (next_token_core l.scan).1.type
    rw [hpe]
    exact ⟨rfl, hline1, hcol1⟩

/-- Witness for the amended C8 on the source `x`: the identifier token's
position is the lexeme start `(1, 1)`. -/
theorem C8_token_position_witness :
    (lexer_next_token (lexer_create "x" "f")).1.pos
      = (postWs (lexer_create "x" "f").scan).pos ∧
    1 ≤ (lexer_next_token (lexer_create "x" "f")).1.pos.line ∧
    1 ≤ (lexer_next_token (lexer_create "x" "f")).1.pos.column :=
  C8_token_position_amended (lexer_create "x" "f") (by decide) (by decide)
    (by decide)
    (by
      intro i h1 h2
      have hc : (lexer_next_token (lexer_create "x" "f")).2.scan.current = 1 := rfl
      rw [hc] at h2
      have h0 : i = 0 := by omega
      subst h0
      decide)

end ShayLang
